import Mathlib

/-!
News RAG chatbot backend: session store, response generator, vector index, chat socket.

A shallow embedding of `src/services/redis.js`, `src/services/gemini.js`,
`src/services/vectorStore.js` and the `send_message` handler of
`src/sockets/chatSocket.js`.

Conventions of the embedding.

* A JavaScript string is a `String`: a `Char` of the Basic Multilingual Plane stands for
  one UTF-16 code unit, a `Char` beyond it for the surrogate pair that encodes it, which
  `substring` counts as two units. Strings holding an unpaired surrogate are outside the
  model.
* An `await`ed call that may reject, and a statement that may throw, is a value of
  `Except String α`; the `String` is the `message` of the thrown error.
* The external services (Redis server, Qdrant, the embedding endpoint, the generative
  model) are explicit arguments: a store state for Redis, functions for the others.
* `console.log` and the other console calls have no effect on any value and are left out.
-/

namespace NewsRag

/-! ## JavaScript string primitives -/

/-- White space and line terminators removed by `String.prototype.trim`. -/
def isJsWhitespace (c : Char) : Bool :=
  let n := c.toNat
  n = 0x09 || n = 0x0A || n = 0x0B || n = 0x0C || n = 0x0D || n = 0x20 || n = 0xA0 ||
  n = 0x1680 || (0x2000 ≤ n && n ≤ 0x200A) || n = 0x2028 || n = 0x2029 || n = 0x202F ||
  n = 0x205F || n = 0x3000 || n = 0xFEFF

/-- The method `s.trim()`. -/
def jsTrim (s : String) : String :=
  String.mk ((s.data.dropWhile isJsWhitespace).reverse.dropWhile isJsWhitespace).reverse

/-- The method `s.includes(pat)`: `pat` occurs in `s` as a contiguous run. -/
def jsIncludes (s pat : String) : Bool :=
  s.data.tails.any (fun t => pat.data.isPrefixOf t)

/-- The characters that fill the first `n` UTF-16 code units: a character beyond the
Basic Multilingual Plane takes two units, and is left out when only one unit remains
(the source keeps its first half there, an unpaired surrogate). -/
def takeUnits : Nat → List Char → List Char
  | 0, _ => []
  | _ + 1, [] => []
  | n + 1, c :: cs =>
    if c.toNat < 0x10000 then c :: takeUnits n cs
    else
      match n with
      | 0 => []
      | m + 1 => c :: takeUnits m cs

/-- The method `s.substring(0, n)`. -/
def jsSubstring0 (s : String) (n : Nat) : String :=
  String.mk (takeUnits n s.data)

/-- Truthiness of a string: every string but the empty one. -/
def jsTruthy (s : String) : Bool :=
  !s.data.isEmpty

/-- The method `xs.join(sep)` on an array of strings. -/
def jsJoin (sep : String) : List String → String
  | [] => ""
  | [x] => x
  | x :: y :: rest => x ++ sep ++ jsJoin sep (y :: rest)

/-- The method `xs.slice(-n)`: the last `n` elements (all of them when there are fewer). -/
def jsSliceLast {α : Type} (n : Nat) (xs : List α) : List α :=
  xs.drop (xs.length - n)

/-! ## Conversation turns and their JSON text -/

/-- One message of a chat history: `{ role, content, timestamp }`. -/
structure Turn where
  role : String
  content : String
  timestamp : String
deriving DecidableEq, Repr

/-- Lower-case hexadecimal digit of a number below 16. -/
def hexDigit (n : Nat) : Char :=
  if n < 10 then Char.ofNat (48 + n) else Char.ofNat (87 + n)

/-- Value of a hexadecimal digit, either case. -/
def hexVal (c : Char) : Option Nat :=
  let n := c.toNat
  if 48 ≤ n ∧ n ≤ 57 then some (n - 48)
  else if 97 ≤ n ∧ n ≤ 102 then some (n - 87)
  else if 65 ≤ n ∧ n ≤ 70 then some (n - 55)
  else none

/-- The escape `JSON.stringify` writes for one code unit inside a string literal. -/
def quoteChar (c : Char) : List Char :=
  if c = '"' then ['\\', '"']
  else if c = '\\' then ['\\', '\\']
  else if c.toNat = 8 then ['\\', 'b']
  else if c.toNat = 12 then ['\\', 'f']
  else if c.toNat = 10 then ['\\', 'n']
  else if c.toNat = 13 then ['\\', 'r']
  else if c.toNat = 9 then ['\\', 't']
  else if c.toNat < 32 then
    ['\\', 'u', '0', '0', hexDigit (c.toNat / 16), hexDigit (c.toNat % 16)]
  else [c]

/-- The JSON string literal of `s`, with its quotes. -/
def quoteString (s : List Char) : List Char :=
  '"' :: (s.flatMap quoteChar ++ ['"'])

/-- The code unit named by the one-letter escape `\e`. -/
def unescapeChar (e : Char) : Option Char :=
  if e = '"' then some '"'
  else if e = '\\' then some '\\'
  else if e = '/' then some '/'
  else if e = 'b' then some (Char.ofNat 8)
  else if e = 'f' then some (Char.ofNat 12)
  else if e = 'n' then some '\n'
  else if e = 'r' then some '\r'
  else if e = 't' then some '\t'
  else none

/-- The code unit of `\uXXXX`; surrogate values are outside the model. -/
def unicodeEscape (h1 h2 h3 h4 : Char) : Option Char :=
  match hexVal h1, hexVal h2, hexVal h3, hexVal h4 with
  | some a, some b, some c, some d =>
    let n := a * 4096 + b * 256 + c * 16 + d
    if 0xD800 ≤ n ∧ n ≤ 0xDFFF then none else some (Char.ofNat n)
  | _, _, _, _ => none

/-- Reads a JSON string literal after its opening quote: the decoded text and what
follows the closing quote. `none` is a `SyntaxError`. -/
def parseStringBody : List Char → Option (List Char × List Char)
  | [] => none
  | c :: rest =>
    if c = '"' then some ([], rest)
    else if c = '\\' then
      match rest with
      | [] => none
      | e :: rest2 =>
        if e = 'u' then
          match rest2 with
          | h1 :: h2 :: h3 :: h4 :: rest3 =>
            match unicodeEscape h1 h2 h3 h4, parseStringBody rest3 with
            | some ch, some (s, r) => some (ch :: s, r)
            | _, _ => none
          | _ => none
        else
          match unescapeChar e, parseStringBody rest2 with
          | some ch, some (s, r) => some (ch :: s, r)
          | _, _ => none
    else if c.toNat < 32 then none
    else
      match parseStringBody rest with
      | some (s, r) => some (c :: s, r)
      | none => none

/-- Reads the literal text `lit` off the front of the input. -/
def expectLit (lit : List Char) (input : List Char) : Option (List Char) :=
  if lit.isPrefixOf input then some (input.drop lit.length) else none

/-- Reads a JSON string literal, opening quote included. -/
def parseString (input : List Char) : Option (List Char × List Char) :=
  match input with
  | '"' :: rest => parseStringBody rest
  | _ => none

/-- The text `JSON.stringify` writes for one turn object: the keys in insertion order. -/
def stringifyTurn (t : Turn) : List Char :=
  "\x7b\"role\":".data ++ quoteString t.role.data ++
  ",\"content\":".data ++ quoteString t.content.data ++
  ",\"timestamp\":".data ++ quoteString t.timestamp.data ++ "\x7d".data

/-- Reads one turn object as `JSON.stringify` writes it. -/
def parseTurn (input : List Char) : Option (Turn × List Char) :=
  match expectLit "\x7b\"role\":".data input with
  | none => none
  | some r1 =>
    match parseString r1 with
    | none => none
    | some (role, r2) =>
      match expectLit ",\"content\":".data r2 with
      | none => none
      | some r3 =>
        match parseString r3 with
        | none => none
        | some (content, r4) =>
          match expectLit ",\"timestamp\":".data r4 with
          | none => none
          | some r5 =>
            match parseString r5 with
            | none => none
            | some (timestamp, r6) =>
              match expectLit "\x7d".data r6 with
              | none => none
              | some r7 => some (⟨String.mk role, String.mk content, String.mk timestamp⟩, r7)

/-- The elements of an array after the first, up to the closing bracket. -/
def parseTurnsRest : Nat → List Char → Option (List Turn)
  | 0, _ => none
  | fuel + 1, input =>
    match input with
    | [']'] => some []
    | ',' :: rest =>
      match parseTurn rest with
      | some (t, rest2) =>
        match parseTurnsRest fuel rest2 with
        | some ts => some (t :: ts)
        | none => none
      | none => none
    | _ => none

/-- The call `JSON.stringify(messages)` on an array of turns. -/
def jsonStringify (messages : List Turn) : String :=
  String.mk ('[' :: (([','] : List Char).intercalate (messages.map stringifyTurn) ++ [']']))

/-- The call `JSON.parse(text)` on the texts `JSON.stringify` writes for arrays of
turns; on any other text the result is `none` (a `SyntaxError`, or a value that is not an
array of turns, neither of which the session store produces). -/
def jsonParse (text : String) : Option (List Turn) :=
  match text.data with
  | ['[', ']'] => some []
  | '[' :: rest =>
    match parseTurn rest with
    | some (t, rest2) =>
      match parseTurnsRest (rest2.length + 1) rest2 with
      | some ts => some (t :: ts)
      | none => none
    | none => none
  | _ => none

/-! ## The Redis server, as far as `SETEX`, `GET` and `DEL` go -/

/-- One key held by the server: its value and the second at which it expires. -/
structure RedisEntry where
  key : String
  value : String
  expireAt : Nat
deriving DecidableEq, Repr

/-- The keys held by the server; a key occurs at most once. -/
abbrev RedisDb := List RedisEntry

/-- Command `GET key` at second `now`: the value, or `none` (nil) when the key is absent
or its time to live has run out. -/
def RedisDb.get (db : RedisDb) (now : Nat) (key : String) : Option String :=
  match db.find? (fun e => e.key == key) with
  | some e => if now < e.expireAt then some e.value else none
  | none => none

/-- Command `SETEX key seconds value` at second `now`: replaces whatever the key held. -/
def RedisDb.setEx (db : RedisDb) (now : Nat) (key : String) (seconds : Nat)
    (value : String) : RedisDb :=
  ⟨key, value, now + seconds⟩ :: db.filter (fun e => e.key != key)

/-- Command `DEL key`. -/
def RedisDb.del (db : RedisDb) (key : String) : RedisDb :=
  db.filter (fun e => e.key != key)

/-! ## `src/services/redis.js` -/

/-- State of `RedisService`: `client` is `null` until `initialize()` has connected; once
connected it is identified with the data of the server it talks to. -/
structure RedisService where
  client : Option RedisDb
deriving DecidableEq, Repr

/-- Circumstances of one Redis command: the server's clock, and `fault = some msg` when
the client rejects the command with `msg` (connection lost) instead of running it. -/
structure RedisCall where
  now : Nat
  fault : Option String
deriving DecidableEq, Repr

/-- The key of a session: the template `session:${sessionId}:history`. -/
def sessionKey (sessionId : String) : String :=
  "session:" ++ sessionId ++ ":history"

/-- Method `storeChatHistory(sessionId, messages)`: the service afterwards, or the error
it rethrows. -/
def RedisService.storeChatHistory (svc : RedisService) (call : RedisCall)
    (sessionId : String) (messages : List Turn) : Except String RedisService :=
  match svc.client with
  | none => .error "Cannot read properties of null (reading 'setEx')"
  | some db =>
    match call.fault with
    | some msg => .error msg
    | none => .ok ⟨some (db.setEx call.now (sessionKey sessionId) 3600 (jsonStringify messages))⟩

/-- Method `getChatHistory(sessionId)`: a nil reply and an empty text are falsy and give
`[]`; a text that `jsonParse` does not read makes `JSON.parse` throw. -/
def RedisService.getChatHistory (svc : RedisService) (call : RedisCall)
    (sessionId : String) : Except String (List Turn) :=
  match svc.client with
  | none => .error "Cannot read properties of null (reading 'get')"
  | some db =>
    match call.fault with
    | some msg => .error msg
    | none =>
      match db.get call.now (sessionKey sessionId) with
      | none => .ok []
      | some history =>
        if jsTruthy history then
          match jsonParse history with
          | some messages => .ok messages
          | none => .error "Unexpected token in JSON"
        else .ok []

/-- Method `clearChatHistory(sessionId)`. -/
def RedisService.clearChatHistory (svc : RedisService) (call : RedisCall)
    (sessionId : String) : Except String RedisService :=
  match svc.client with
  | none => .error "Cannot read properties of null (reading 'del')"
  | some db =>
    match call.fault with
    | some msg => .error msg
    | none => .ok ⟨some (db.del (sessionKey sessionId))⟩

/-! ## `src/services/vectorStore.js` -/

/-- A point's payload: a JavaScript object with string members, first binding wins. -/
abbrev Payload := List (String × String)

/-- An embedding vector. -/
abbrev Embedding := List ℚ

/-- One hit of a Qdrant search. -/
structure ScoredPoint where
  id : String
  score : ℚ
  payload : Payload
deriving DecidableEq, Repr

/-- The body the service sends with `client.search`. -/
structure SearchRequest where
  vector : Embedding
  limit : Nat
  with_payload : Bool
  score_threshold : ℚ
deriving DecidableEq, Repr

/-- What the vector store talks to: the `JINA_API_KEY` of the process environment, the
embeddings endpoint (key, input text), and Qdrant's search (collection, body). -/
structure VectorBackend where
  jinaApiKey : Option String
  embed : String → String → Except String Embedding
  search : String → SearchRequest → Except String (List ScoredPoint)

/-- State of `VectorStoreService`. -/
structure VectorStoreService where
  collectionName : String
  initialized : Bool
deriving DecidableEq, Repr

/-- The service as its constructor leaves it. -/
def VectorStoreService.new : VectorStoreService :=
  ⟨"news_articles", false⟩

/-- Method `getEmbedding(text)`. -/
def getEmbedding (backend : VectorBackend) (text : String) : Except String Embedding :=
  match backend.jinaApiKey with
  | none => .error "JINA_API_KEY is not set in environment variables"
  | some key =>
    if jsTruthy key then backend.embed key text
    else .error "JINA_API_KEY is not set in environment variables"

/-- Method `searchSimilar(query, limit)`. -/
def VectorStoreService.searchSimilar (svc : VectorStoreService) (backend : VectorBackend)
    (query : String) (limit : Nat) : Except String (List ScoredPoint) :=
  match getEmbedding backend query with
  | .error e => .error e
  | .ok queryEmbedding =>
    backend.search svc.collectionName ⟨queryEmbedding, limit, true, 0.5⟩

/-- A point stored in a Qdrant collection. -/
structure StoredPoint where
  id : String
  vector : Embedding
  payload : Payload
deriving DecidableEq, Repr

/-- Ordering used to rank hits: higher score first. -/
def scoreGe (a b : ScoredPoint) : Prop :=
  b.score ≤ a.score

instance : DecidableRel scoreGe :=
  fun a b => inferInstanceAs (Decidable (b.score ≤ a.score))

instance : IsTotal ScoredPoint scoreGe :=
  ⟨fun a b => le_total b.score a.score⟩

instance : IsTrans ScoredPoint scoreGe :=
  ⟨fun _ _ _ hab hbc => le_trans hbc hab⟩

/-- Qdrant's search over one collection with a similarity measure `sim`: every point is
scored against the request vector, hits under `score_threshold` are dropped, the rest are
ranked by score and cut to `limit`. -/
def qdrantSearch (sim : Embedding → Embedding → ℚ) (points : List StoredPoint)
    (req : SearchRequest) : List ScoredPoint :=
  let scored := points.map (fun p => (⟨p.id, sim req.vector p.vector, p.payload⟩ : ScoredPoint))
  let kept := scored.filter (fun h => decide (req.score_threshold ≤ h.score))
  (kept.insertionSort scoreGe).take req.limit

/-- What Qdrant's search promises for every request: hits ranked by score, none under
the request's threshold, no more of them than the request's limit. -/
def SearchContract (search : String → SearchRequest → Except String (List ScoredPoint)) : Prop :=
  ∀ collection req results, search collection req = .ok results →
    results.Pairwise (fun a b => b.score ≤ a.score) ∧
      (∀ r ∈ results, req.score_threshold ≤ r.score) ∧ results.length ≤ req.limit

/-! ## `src/services/gemini.js` -/

/-- Static field `GeminiService.AVAILABLE_MODELS`. -/
def AVAILABLE_MODELS : List String :=
  ["models/gemini-2.5-flash", "models/gemini-2.5-pro", "models/gemini-2.0-flash"]

/-- One candidate of a completion, as far as the service reads it. -/
structure Candidate where
  finishReason : String
deriving DecidableEq, Repr

/-- The `response` of a `generateContent` result: its `candidates` (`[]` also when the
field is absent) and what the accessor `response.text()` does, return or throw. -/
structure GenerateContentResponse where
  candidates : List Candidate
  text : Except String String

/-- The generative backend: `generateContent` of the model with the given name on the
given prompt, resolving to a response or rejecting with a message. -/
abbrev GenerativeBackend := String → String → Except String GenerateContentResponse

/-- The finish reasons of a first candidate on which the accessor `response.text()` of
the SDK (`@google/generative-ai`, a dependency that is not part of the repository) throws
instead of returning the text. -/
def badFinishReasons : List String :=
  ["RECITATION", "SAFETY"]

/-- What the SDK's accessor `response.text()` does on a completion whose first candidate
carries one of `badFinishReasons`: it throws. -/
def SdkTextContract (response : GenerateContentResponse) : Prop :=
  ∀ c rest, response.candidates = c :: rest → c.finishReason ∈ badFinishReasons →
    ∃ message, response.text = .error message

/-- State of `GeminiService`: the name of the adopted model, `none` for `null`. -/
structure GeminiService where
  model : Option String
deriving DecidableEq, Repr

/-- The prompt `initializeModel` sends to each candidate. -/
def probePrompt : String :=
  "Hello, respond with \"OK\""

/-- One iteration of the loop of `initializeModel`: whether the candidate is adopted. A
throw inside the `try` is caught and the loop goes on. -/
def probeAccepts (api : GenerativeBackend) (modelName : String) : Bool :=
  match api modelName probePrompt with
  | .error _ => false
  | .ok response =>
    match response.text with
    | .error _ => false
    | .ok text => jsTruthy text && jsIncludes text "OK"

/-- The loop of `initializeModel` over the candidates left: the candidates it probes, in
order, and the one it adopts. -/
def probeModels (api : GenerativeBackend) : List String → List String × Option String
  | [] => ([], none)
  | modelName :: rest =>
    if probeAccepts api modelName then ([modelName], some modelName)
    else ((modelName :: (probeModels api rest).1), (probeModels api rest).2)

/-- Method `initializeModel()`: the model it stores in `this.model`, or the error it
throws, in which case `this.model` is left as it was. -/
def initializeModel (api : GenerativeBackend) : Except String String :=
  match (probeModels api AVAILABLE_MODELS).2 with
  | some modelName => .ok modelName
  | none => .error "No working Gemini model found. Please check your API key."

/-- The statement `if (!this.model) await this.initializeModel()`: the model in use
afterwards, or the error `initializeModel` throws. -/
def GeminiService.ensureModel (svc : GeminiService) (api : GenerativeBackend) :
    Except String String :=
  match svc.model with
  | some modelName => .ok modelName
  | none => initializeModel api

/-- A value inside a template literal: an absent member prints as `undefined`. -/
def jsTemplate (v : Option String) : String :=
  match v with
  | some s => s
  | none => "undefined"

/-- The numbered title lines of `getFallbackResponse`, before they are joined. -/
def fallbackTitleLines (context : List ScoredPoint) : List String :=
  context.mapIdx (fun index article =>
    toString (index + 1) ++ ". " ++ jsTemplate (article.payload.lookup "title"))

/-- Method `getFallbackResponse(query, context, errorMsg)`. -/
def getFallbackResponse (query : String) (context : List ScoredPoint)
    (errorMsg : String) : String :=
  let articleCount := context.length
  let articleTitles := jsJoin "\n" (fallbackTitleLines context)
  "I found " ++ toString articleCount ++ " relevant news articles for your question about \"" ++
    query ++ "\":\n\n" ++ articleTitles ++ "\n\n" ++
    (if jsTruthy errorMsg then "Note: " ++ errorMsg
     else "I am currently experiencing issues with the AI service.") ++
    "\n\nIn a fully working system, I would provide a detailed summary based on the content of these articles."

/-- One article of the prompt's context; reading `substring` off an absent `text`
throws. -/
def formatArticle (index : Nat) (article : ScoredPoint) : Except String String :=
  match article.payload.lookup "text" with
  | none => .error "Cannot read properties of undefined (reading 'substring')"
  | some text =>
    .ok ("📰 Source " ++ toString (index + 1) ++ ": " ++
      jsTemplate (article.payload.lookup "title") ++ "\n📖 Content: " ++
      jsSubstring0 text 400 ++ "...")

/-- The results of a `map` whose callback may throw: the first throw wins. -/
def collectResults : List (Except String String) → Except String (List String)
  | [] => .ok []
  | .error e :: _ => .error e
  | .ok x :: rest =>
    match collectResults rest with
    | .error e => .error e
    | .ok xs => .ok (x :: xs)

/-- The `contextText` of `generateResponse`. -/
def formatContext (context : List ScoredPoint) : Except String String :=
  match collectResults (context.mapIdx formatArticle) with
  | .error e => .error e
  | .ok parts => .ok (jsJoin "\n\n" parts)

/-- One line of the prompt's conversation section. -/
def formatTurn (msg : Turn) : String :=
  (if msg.role = "user" then "👤 User" else "🤖 Assistant") ++ ": " ++ msg.content

/-- The `historyText` of `generateResponse`: the last three turns. -/
def formatHistory (chatHistory : List Turn) : String :=
  jsJoin "\n" ((jsSliceLast 3 chatHistory).map formatTurn)

/-- The `prompt` template of `generateResponse`. -/
def buildPrompt (contextText historyText query : String) : String :=
  "You are a helpful news assistant. Use the provided news articles to answer the user's question.\n\nRECENT NEWS ARTICLES:\n" ++
    contextText ++ "\n\n" ++
    (if jsTruthy historyText then "RECENT CONVERSATION:\n" ++ historyText ++ "\n\n" else "") ++
    "\nUSER QUESTION: " ++ query ++
    "\n\nINSTRUCTIONS:\n1. Answer based on the news articles provided above\n2. If the articles don't contain relevant information, say \"I don't have specific information about this in the recent news, but generally...\" and provide helpful information\n3. Be concise and factual\n4. Reference specific articles when possible (e.g., \"According to Source 1...\")\n5. Keep your response under 250 words\n\nPlease provide a helpful answer:"

/-- The `try` block of `generateResponse` with the model `modelName`: the value it
returns, or the message of what it throws. -/
def generateAttempt (api : GenerativeBackend) (modelName query : String)
    (context : List ScoredPoint) (chatHistory : List Turn) : Except String String :=
  match formatContext context with
  | .error e => .error e
  | .ok contextText =>
    let historyText := formatHistory chatHistory
    let prompt := buildPrompt contextText historyText query
    match api modelName prompt with
    | .error e => .error e
    | .ok response =>
      if (response.candidates.head?.map (fun c => c.finishReason)) = some "SAFETY" then
        .ok (getFallbackResponse query context "Response was blocked by safety filters.")
      else
        match response.text with
        | .error e => .error e
        | .ok responseText =>
          if !jsTruthy responseText || jsTrim responseText = "" then
            .ok (getFallbackResponse query context "Received empty response from AI service.")
          else .ok responseText

/-- The `catch` block of `generateResponse`, on an error with the given message. -/
def generateRecover (query : String) (context : List ScoredPoint) (message : String) : String :=
  if jsIncludes message "SAFETY" then
    getFallbackResponse query context "The response was blocked for safety reasons."
  else if jsIncludes message "quota" then
    getFallbackResponse query context "API quota exceeded. Please try again later."
  else getFallbackResponse query context ("AI service error: " ++ message)

/-- Method `generateResponse(query, context, chatHistory)`: what it returns or throws,
and the service afterwards. The call of `initializeModel` stands before the `try`. -/
def GeminiService.generateResponse (svc : GeminiService) (api : GenerativeBackend)
    (query : String) (context : List ScoredPoint) (chatHistory : List Turn) :
    Except String String × GeminiService :=
  match svc.ensureModel api with
  | .error e => (.error e, svc)
  | .ok modelName =>
    match generateAttempt api modelName query context chatHistory with
    | .ok answer => (.ok answer, ⟨some modelName⟩)
    | .error message => (.ok (generateRecover query context message), ⟨some modelName⟩)

/-- Method `healthCheck()`: here the call of `initializeModel` stands inside the `try`. -/
def GeminiService.healthCheck (svc : GeminiService) (api : GenerativeBackend) :
    Bool × GeminiService :=
  match svc.ensureModel api with
  | .error _ => (false, svc)
  | .ok modelName =>
    match api modelName "Health check - please respond with \"OK\"" with
    | .error _ => (false, ⟨some modelName⟩)
    | .ok response =>
      match response.text with
      | .error _ => (false, ⟨some modelName⟩)
      | .ok text => (jsIncludes text "OK", ⟨some modelName⟩)

/-! ## `src/sockets/chatSocket.js`: the `send_message` handler -/

/-- An event the handler emits on the socket. -/
inductive Event where
  | error (message : String)
  | bot_typing (typing : Bool)
  | receive_message (message : Turn)
deriving DecidableEq, Repr

/-- A call the handler makes to one of the services. -/
inductive ServiceCall where
  | getChatHistory (sessionId : String)
  | searchSimilar (query : String) (limit : Nat)
  | generateResponse (query : String) (context : List ScoredPoint) (chatHistory : List Turn)
  | storeChatHistory (sessionId : String) (messages : List Turn)
deriving DecidableEq, Repr

/-- The singleton services the handler shares. -/
structure Services where
  redis : RedisService
  vectorStore : VectorStoreService
  gemini : GeminiService
deriving DecidableEq, Repr

/-- The surroundings of one exchange: the circumstances of the two Redis commands, the
backends of retrieval and generation, and the two readings of the clock
(`new Date().toISOString()`). -/
structure Exchange where
  load : RedisCall
  persist : RedisCall
  vector : VectorBackend
  generative : GenerativeBackend
  userTimestamp : String
  botTimestamp : String

/-- What one run of the handler leaves behind. -/
structure Outcome where
  events : List Event
  calls : List ServiceCall
  services : Services
deriving DecidableEq, Repr

/-- The `catch` block of the handler: the two events it emits. -/
def failureEvents (message : String) : List Event :=
  [Event.error ("Failed to process message: " ++ message), Event.bot_typing false]

/-- The `send_message` handler on `{ message, sessionId }`. -/
def sendMessage (svcs : Services) (x : Exchange) (message sessionId : String) : Outcome :=
  if !jsTruthy (jsTrim message) then
    ⟨[Event.error "Message cannot be empty"], [], svcs⟩
  else
    let c1 := [ServiceCall.getChatHistory sessionId]
    match svcs.redis.getChatHistory x.load sessionId with
    | .error e => ⟨failureEvents e, c1, svcs⟩
    | .ok stored =>
      let userMessage : Turn := ⟨"user", message, x.userTimestamp⟩
      let chatHistory := stored ++ [userMessage]
      let typing := [Event.bot_typing true]
      let c2 := c1 ++ [ServiceCall.searchSimilar message 3]
      match svcs.vectorStore.searchSimilar x.vector message 3 with
      | .error e => ⟨typing ++ failureEvents e, c2, svcs⟩
      | .ok relevantArticles =>
        let c3 := c2 ++ [ServiceCall.generateResponse message relevantArticles chatHistory]
        match svcs.gemini.generateResponse x.generative message relevantArticles chatHistory with
        | (.error e, gemini) => ⟨typing ++ failureEvents e, c3, ⟨svcs.redis, svcs.vectorStore, gemini⟩⟩
        | (.ok botResponse, gemini) =>
          let botMessage : Turn := ⟨"assistant", botResponse, x.botTimestamp⟩
          let chatHistory2 := chatHistory ++ [botMessage]
          let c4 := c3 ++ [ServiceCall.storeChatHistory sessionId chatHistory2]
          match svcs.redis.storeChatHistory x.persist sessionId chatHistory2 with
          | .error e =>
            ⟨typing ++ failureEvents e, c4, ⟨svcs.redis, svcs.vectorStore, gemini⟩⟩
          | .ok redis =>
            ⟨typing ++ [Event.receive_message botMessage, Event.bot_typing false], c4,
              ⟨redis, svcs.vectorStore, gemini⟩⟩

/-! ## `src/services/vectorStore.js`: `initialize` and `addDocument` -/

/-- The object literal `{ ...base, ...extra }`: the members of `base` in their places,
each with the value `extra` gives its key when it has one, then the members of `extra`
under keys that `base` lacks. -/
def jsSpread (base extra : Payload) : Payload :=
  base.map (fun kv => (kv.1, (extra.lookup kv.1).getD kv.2)) ++
    extra.filter (fun kv => (base.lookup kv.1).isNone)

/-- The `vectors` parameters sent with `createCollection`. -/
structure VectorParams where
  size : Nat
  distance : String
deriving DecidableEq, Repr

/-- The body the service sends with `client.upsert`. -/
structure UpsertRequest where
  wait : Bool
  points : List StoredPoint
deriving DecidableEq, Repr

/-- A request the service issues to Qdrant through its client. -/
inductive QdrantRequest where
  | getCollections
  | createCollection (name : String) (vectors : VectorParams)
  | upsert (collection : String) (body : UpsertRequest)
deriving DecidableEq, Repr

/-- The collections Qdrant holds, by name. -/
structure QdrantStore where
  collections : List (String × VectorParams)
deriving DecidableEq, Repr

/-- Reply of `getCollections`: the names of the collections. -/
def QdrantStore.getCollections (store : QdrantStore) : List String :=
  store.collections.map (fun col => col.1)

/-- Effect of `createCollection`: Qdrant refuses a name it already holds. -/
def QdrantStore.createCollection (store : QdrantStore) (name : String)
    (vectors : VectorParams) : Except String QdrantStore :=
  if name ∈ store.getCollections then .error "Conflict: collection already exists"
  else .ok ⟨store.collections ++ [(name, vectors)]⟩

/-- Circumstances of one call of `initialize`: `some msg` when the client rejects the
request with `msg` (store unreachable) instead of running it. -/
structure InitializeCall where
  listing : Option String
  creating : Option String
deriving DecidableEq, Repr

/-- What one call of `initialize` leaves behind: what it returns or throws, the service,
the store, and the requests it issued. -/
structure InitializeOutcome where
  result : Except String Unit
  service : VectorStoreService
  store : QdrantStore
  requests : List QdrantRequest
deriving Repr

/-- Method `initialize()`. -/
def VectorStoreService.initialize (svc : VectorStoreService) (store : QdrantStore)
    (call : InitializeCall) : InitializeOutcome :=
  if svc.initialized then ⟨.ok (), svc, store, []⟩
  else
    match call.listing with
    | some msg => ⟨.error msg, svc, store, [QdrantRequest.getCollections]⟩
    | none =>
      let collections := store.getCollections
      let found := collections.find? (fun col => col == svc.collectionName)
      match found with
      | some _ => ⟨.ok (), ⟨svc.collectionName, true⟩, store, [QdrantRequest.getCollections]⟩
      | none =>
        let requests := [QdrantRequest.getCollections,
          QdrantRequest.createCollection svc.collectionName ⟨768, "Cosine"⟩]
        match call.creating with
        | some msg => ⟨.error msg, svc, store, requests⟩
        | none =>
          match store.createCollection svc.collectionName ⟨768, "Cosine"⟩ with
          | .error e => ⟨.error e, svc, store, requests⟩
          | .ok created => ⟨.ok (), ⟨svc.collectionName, true⟩, created, requests⟩

/-- What one call of `addDocument` leaves behind: what it returns or throws, and the
requests it issued. -/
structure AddDocumentOutcome where
  result : Except String Unit
  requests : List QdrantRequest
deriving Repr

/-- Method `addDocument(id, text, metadata)`; `upserting = some msg` when the client
rejects the upsert with `msg`. -/
def VectorStoreService.addDocument (svc : VectorStoreService) (backend : VectorBackend)
    (upserting : Option String) (id text : String) (metadata : Payload) :
    AddDocumentOutcome :=
  match getEmbedding backend text with
  | .error e => ⟨.error e, []⟩
  | .ok embedding =>
    let requests := [QdrantRequest.upsert svc.collectionName
      ⟨true, [⟨id, embedding, jsSpread [("text", text)] metadata⟩]⟩]
    match upserting with
    | some msg => ⟨.error msg, requests⟩
    | none => ⟨.ok (), requests⟩

/-- Two calls of `initialize` in a row, the second on the service and the store the first
left behind: the outcomes of the first and of the second. -/
def initializeTwice (svc : VectorStoreService) (store : QdrantStore)
    (first second : InitializeCall) : InitializeOutcome × InitializeOutcome :=
  let o1 := VectorStoreService.initialize svc store first
  (o1, VectorStoreService.initialize o1.service o1.store second)

/-! ## `src/services/gemini.js`: `initializeModel` as a method of the service -/

/-- What one call of `initializeModel` leaves behind: what it returns or throws, the
service, and the candidates it probed, in order. -/
structure InitializeModelOutcome where
  result : Except String Unit
  service : GeminiService
  probed : List String
deriving Repr

/-- Method `initializeModel()` with its effect on `this.model`. -/
def GeminiService.initializeModel (svc : GeminiService) (api : GenerativeBackend) :
    InitializeModelOutcome :=
  match (probeModels api AVAILABLE_MODELS).2 with
  | some modelName => ⟨.ok (), ⟨some modelName⟩, (probeModels api AVAILABLE_MODELS).1⟩
  | none =>
    ⟨.error "No working Gemini model found. Please check your API key.", svc,
      (probeModels api AVAILABLE_MODELS).1⟩

/-! ## Specification-side definitions -/

/-- The listing the specification asks of the fallback response: the titles in context
order, numbered from 1. -/
def numberedTitles (titles : List String) : List String :=
  List.zipWith (fun i t => toString i ++ ". " ++ t) (List.range' 1 titles.length) titles

/-- Whether the probe of a candidate returned text containing the acknowledgment token:
the condition the specification puts on the adopted model. -/
def probeAcknowledged (api : GenerativeBackend) (modelName : String) : Bool :=
  match api modelName probePrompt with
  | .error _ => false
  | .ok response =>
    match response.text with
    | .error _ => false
    | .ok text => jsIncludes text "OK"

/-- The last `min k n` turns of a history of `n` turns, in their original order. -/
def lastTurns (k : Nat) (chatHistory : List Turn) : List Turn :=
  (chatHistory.reverse.take k).reverse

/-- The conversation section the specification asks of the prompt: absent without
turns, otherwise a heading and one role-labelled line per turn. -/
def conversationSection (turns : List Turn) : String :=
  if turns = [] then ""
  else "RECENT CONVERSATION:\n" ++ jsJoin "\n" (turns.map formatTurn) ++ "\n\n"

/-! ## Sample inputs -/

/-- Two retrieved articles, scoring 0.8 and 0.6. -/
def sampleArticles : List ScoredPoint :=
  [⟨"a1", 0.8, [("text", "Votes were counted on Sunday."), ("title", "Election results announced")]⟩,
   ⟨"a2", 0.6, [("text", "Turnout reached a record."), ("title", "Record turnout")]⟩]

/-- A generative backend that answers every prompt of every model with the same text. -/
def sampleGenerative : GenerativeBackend :=
  fun _ _ => .ok ⟨[⟨"STOP"⟩], .ok "OK. According to Source 1, the votes were counted on Sunday."⟩

/-- A vector backend whose search returns the two sample articles. -/
def sampleVector : VectorBackend :=
  ⟨some "jina-key", fun _ _ => .ok [1, 0], fun _ _ => .ok sampleArticles⟩

/-- Services at start-up: Redis connected and empty, no model adopted yet. -/
def sampleServices : Services :=
  ⟨⟨some []⟩, VectorStoreService.new, ⟨none⟩⟩

/-- An exchange in which every dependency answers. -/
def sampleExchange : Exchange :=
  ⟨⟨100, none⟩, ⟨101, none⟩, sampleVector, sampleGenerative,
    "2024-05-01T10:00:00.000Z", "2024-05-01T10:00:02.000Z"⟩

/-- An exchange in which retrieval fails. -/
def sampleExchangeNoSearch : Exchange :=
  ⟨⟨100, none⟩, ⟨101, none⟩,
    ⟨some "jina-key", fun _ _ => .error "timeout of 30000ms exceeded", fun _ _ => .ok []⟩,
    sampleGenerative, "2024-05-01T10:00:00.000Z", "2024-05-01T10:00:02.000Z"⟩

/-- A model already adopted. -/
def sampleGemini : GeminiService :=
  ⟨some "models/gemini-2.5-flash"⟩

/-- A generative backend on which every call is rejected. -/
def sampleGenerativeDown : GenerativeBackend :=
  fun _ _ => .error "API key not valid. Please pass a valid API key."

/-- A generative backend whose completions stop for the reason `OTHER` and carry text. -/
def sampleGenerativeOther : GenerativeBackend :=
  fun _ _ => .ok ⟨[⟨"OTHER"⟩], .ok "The votes were counted on Sunday."⟩

/-- A generative backend whose completions stop for the reason `RECITATION`, on which
the accessor throws. -/
def sampleGenerativeRecitation : GenerativeBackend :=
  fun _ _ => .ok ⟨[⟨"RECITATION"⟩], .error "Candidate was blocked due to RECITATION"⟩

/-- A generative backend whose completions are blocked by the safety filters. -/
def sampleGenerativeSafety : GenerativeBackend :=
  fun _ _ => .ok ⟨[⟨"SAFETY"⟩], .error "Response was blocked due to SAFETY"⟩

/-- Similarity of two embeddings: their dot product. -/
def sampleSimilarity (a b : Embedding) : ℚ :=
  (List.zipWith (fun x y => x * y) a b).sum

/-- Three stored points. -/
def samplePoints : List StoredPoint :=
  [⟨"p1", [0.6, 0.8], [("text", "Turnout reached a record."), ("title", "Record turnout")]⟩,
   ⟨"p2", [0.8, 0.6], [("text", "Votes were counted on Sunday."), ("title", "Election results announced")]⟩,
   ⟨"p3", [0.1, 0.9], [("text", "Rain is expected."), ("title", "Weather")]⟩]

/-- A vector backend whose search is `qdrantSearch` over the three sample points. -/
def sampleQdrant : VectorBackend :=
  ⟨some "jina-key", fun _ _ => .ok [1, 0],
    fun _ req => .ok (qdrantSearch sampleSimilarity samplePoints req)⟩

/-- A chat history of two turns. -/
def sampleTurns : List Turn :=
  [⟨"user", "What happened in the election?", "2024-05-01T10:00:00.000Z"⟩,
   ⟨"assistant", "According to Source 1, \"votes\" were counted.\n", "2024-05-01T10:00:02.000Z"⟩]

/-- Metadata as the ingestion script passes it. -/
def sampleMetadata : Payload :=
  [("title", "Election results announced"), ("url", "https://news.example/election"),
   ("source", "Example News")]

/-- Metadata that itself has a member named `text`. -/
def sampleMetadataWithText : Payload :=
  [("title", "Election results announced"), ("text", "Subscribe to read more.")]

/-- A generative backend on which the first candidate is not found, the second answers
the probe, and the third is never needed. -/
def sampleGenerativeSecond : GenerativeBackend :=
  fun modelName _ =>
    if modelName = "models/gemini-2.5-pro" then .ok ⟨[⟨"STOP"⟩], .ok "OK"⟩
    else .error "models/gemini-2.5-flash is not found"

/-- A Qdrant store that holds no collection yet. -/
def sampleStore : QdrantStore :=
  ⟨[]⟩

/-- A call of `initialize` during which the store cannot be reached. -/
def sampleUnreachable : InitializeCall :=
  ⟨some "connect ECONNREFUSED 127.0.0.1:6333", none⟩

/-- A chat history of five turns. -/
def sampleLongHistory : List Turn :=
  [⟨"user", "Hello", "t1"⟩, ⟨"assistant", "Hi, how can I help?", "t2"⟩,
   ⟨"user", "What happened in the election?", "t3"⟩,
   ⟨"assistant", "According to Source 1, votes were counted.", "t4"⟩,
   ⟨"user", "And the turnout?", "t5"⟩]

/-! ## Lemmas on the string primitives -/

theorem jsTruthy_iff (s : String) : jsTruthy s = true ↔ s ≠ "" := by
  unfold jsTruthy
  rw [Ne, String.ext_iff]
  cases hs : s.data <;> simp

theorem jsTrim_of_all_whitespace (s : String) (h : ∀ c ∈ s.data, isJsWhitespace c = true) :
    jsTrim s = "" := by
  unfold jsTrim
  have h1 : s.data.dropWhile isJsWhitespace = [] := List.dropWhile_eq_nil_iff.mpr h
  rw [h1]
  rfl

theorem jsTrim_of_not_truthy (s : String) (h : jsTruthy s = false) : jsTrim s = "" := by
  apply jsTrim_of_all_whitespace
  unfold jsTruthy at h
  cases hs : s.data with
  | nil => simp
  | cons c cs => simp [hs] at h

theorem jsIncludes_of_data (s p : String) (a b : List Char) (h : s.data = a ++ p.data ++ b) :
    jsIncludes s p = true := by
  unfold jsIncludes
  rw [List.any_eq_true]
  refine ⟨p.data ++ b, ?_, ?_⟩
  · rw [List.mem_tails, h, List.append_assoc]
    exact List.suffix_append a _
  · exact List.isPrefixOf_iff_prefix.mpr (List.prefix_append _ _)

theorem jsIncludes_append (a p b : String) : jsIncludes (a ++ p ++ b) p = true :=
  jsIncludes_of_data _ p a.data b.data (by simp [String.data_append])

theorem jsIncludes_trans (s m p : String) (h1 : jsIncludes s m = true)
    (h2 : jsIncludes m p = true) : jsIncludes s p = true := by
  unfold jsIncludes at *
  rw [List.any_eq_true] at *
  obtain ⟨t1, ht1, hp1⟩ := h1
  obtain ⟨t2, ht2, hp2⟩ := h2
  rw [List.mem_tails] at ht1 ht2
  rw [List.isPrefixOf_iff_prefix] at hp1 hp2
  obtain ⟨a1, ha1⟩ := ht1
  obtain ⟨b1, hb1⟩ := hp1
  obtain ⟨a2, ha2⟩ := ht2
  obtain ⟨b2, hb2⟩ := hp2
  refine ⟨t2 ++ b1, ?_, ?_⟩
  · rw [List.mem_tails]
    refine ⟨a1 ++ a2, ?_⟩
    rw [← ha1, ← hb1, ← ha2]
    simp
  · rw [List.isPrefixOf_iff_prefix]
    exact ⟨b2 ++ b1, by rw [← hb2]; simp⟩

theorem jsIncludes_jsJoin (sep : String) (xs : List String) (x : String) (hx : x ∈ xs) :
    jsIncludes (jsJoin sep xs) x = true := by
  induction xs with
  | nil => simp at hx
  | cons y ys ih =>
    cases ys with
    | nil =>
      have : x = y := by simpa using hx
      subst this
      exact jsIncludes_of_data _ _ [] [] (by simp [jsJoin])
    | cons z zs =>
      rw [jsJoin]
      rcases List.mem_cons.mp hx with h | h
      · subst h
        exact jsIncludes_of_data _ _ [] (sep.data ++ (jsJoin sep (z :: zs)).data)
          (by simp [String.data_append])
      · have h3 := ih h
        exact jsIncludes_trans _ _ _
          (jsIncludes_of_data (y ++ sep ++ jsJoin sep (z :: zs)) (jsJoin sep (z :: zs))
            (y ++ sep).data [] (by simp [String.data_append])) h3

/-! ## Lemmas on the JSON text of turns -/

theorem char_eq_of_toNat (c : Char) (n : Nat) (h : c.toNat = n) : c = Char.ofNat n := by
  rw [← h]; exact (Char.ofNat_toNat c).symm

theorem parseStringBody_escape (e : Char) (tail : List Char) (he : e ≠ 'u') :
    parseStringBody ('\\' :: e :: tail) =
      match unescapeChar e, parseStringBody tail with
      | some ch, some (s, r) => some (ch :: s, r)
      | _, _ => none := by
  rw [parseStringBody.eq_def]
  simp [he]

theorem parseStringBody_unicode (h1 h2 h3 h4 : Char) (tail : List Char) :
    parseStringBody ('\\' :: 'u' :: h1 :: h2 :: h3 :: h4 :: tail) =
      match unicodeEscape h1 h2 h3 h4, parseStringBody tail with
      | some ch, some (s, r) => some (ch :: s, r)
      | _, _ => none := by
  rw [parseStringBody.eq_def]
  simp

theorem parseStringBody_plain (c : Char) (tail : List Char) (h1 : c ≠ '"') (h2 : c ≠ '\\')
    (h3 : ¬ c.toNat < 32) :
    parseStringBody (c :: tail) =
      match parseStringBody tail with
      | some (s, r) => some (c :: s, r)
      | none => none := by
  rw [parseStringBody.eq_def]
  simp [h1, h2, h3]

theorem parseStringBody_quoteChar (c : Char) (tail : List Char) :
    parseStringBody (quoteChar c ++ tail) =
      match parseStringBody tail with
      | some (s, r) => some (c :: s, r)
      | none => none := by
  unfold quoteChar
  split_ifs with h1 h2 h3 h4 h5 h6 h7 h8
  · subst h1
    rw [show ['\\', '"'] ++ tail = '\\' :: '"' :: tail from rfl,
      parseStringBody_escape _ _ (by decide)]
    cases parseStringBody tail <;> simp [unescapeChar]
  · subst h2
    rw [show ['\\', '\\'] ++ tail = '\\' :: '\\' :: tail from rfl,
      parseStringBody_escape _ _ (by decide)]
    cases parseStringBody tail <;> simp [unescapeChar]
  · have := char_eq_of_toNat c 8 h3; subst this
    rw [show ['\\', 'b'] ++ tail = '\\' :: 'b' :: tail from rfl,
      parseStringBody_escape _ _ (by decide)]
    cases parseStringBody tail <;> simp [unescapeChar]
  · have := char_eq_of_toNat c 12 h4; subst this
    rw [show ['\\', 'f'] ++ tail = '\\' :: 'f' :: tail from rfl,
      parseStringBody_escape _ _ (by decide)]
    cases parseStringBody tail <;> simp [unescapeChar]
  · have := char_eq_of_toNat c 10 h5; subst this
    rw [show ['\\', 'n'] ++ tail = '\\' :: 'n' :: tail from rfl,
      parseStringBody_escape _ _ (by decide)]
    cases parseStringBody tail <;> simp [unescapeChar]
  · have := char_eq_of_toNat c 13 h6; subst this
    rw [show ['\\', 'r'] ++ tail = '\\' :: 'r' :: tail from rfl,
      parseStringBody_escape _ _ (by decide)]
    cases parseStringBody tail <;> simp [unescapeChar]
  · have := char_eq_of_toNat c 9 h7; subst this
    rw [show ['\\', 't'] ++ tail = '\\' :: 't' :: tail from rfl,
      parseStringBody_escape _ _ (by decide)]
    cases parseStringBody tail <;> simp [unescapeChar]
  · have hc := char_eq_of_toNat c c.toNat rfl
    have hu : unicodeEscape '0' '0' (hexDigit (c.toNat / 16)) (hexDigit (c.toNat % 16)) = some c := by
      generalize c.toNat = n at hc h8
      subst hc
      interval_cases n <;> decide
    rw [show ['\\', 'u', '0', '0', hexDigit (c.toNat / 16), hexDigit (c.toNat % 16)] ++ tail =
        '\\' :: 'u' :: '0' :: '0' :: hexDigit (c.toNat / 16) :: hexDigit (c.toNat % 16) :: tail from rfl,
      parseStringBody_unicode, hu]
    cases parseStringBody tail <;> simp
  · rw [List.singleton_append, parseStringBody_plain c tail h1 h2 h8]

theorem parseStringBody_quote (s rest : List Char) :
    parseStringBody (s.flatMap quoteChar ++ '"' :: rest) = some (s, rest) := by
  induction s with
  | nil => rw [List.flatMap_nil, List.nil_append, parseStringBody.eq_def]; simp
  | cons c s ih =>
    rw [List.flatMap_cons, List.append_assoc, parseStringBody_quoteChar, ih]

theorem parseString_quoteString (s rest : List Char) :
    parseString (quoteString s ++ rest) = some (s, rest) := by
  unfold quoteString
  rw [List.cons_append, List.append_assoc]
  exact parseStringBody_quote s rest

theorem expectLit_append (lit rest : List Char) : expectLit lit (lit ++ rest) = some rest := by
  unfold expectLit
  have h : lit.isPrefixOf (lit ++ rest) = true :=
    List.isPrefixOf_iff_prefix.mpr (List.prefix_append lit rest)
  rw [if_pos h, List.drop_left]

theorem parseTurn_stringifyTurn (t : Turn) (rest : List Char) :
    parseTurn (stringifyTurn t ++ rest) = some (t, rest) := by
  unfold parseTurn stringifyTurn
  simp only [List.append_assoc, expectLit_append, parseString_quoteString]

theorem stringifyTurn_head (t : Turn) :
    ∃ tail, stringifyTurn t = '\x7b' :: tail := by
  unfold stringifyTurn
  exact ⟨_, rfl⟩

/-- The text of the elements after the first, each behind its comma. -/
theorem intercalate_cons (t : Turn) (ts : List Turn) :
    ([','] : List Char).intercalate ((t :: ts).map stringifyTurn) =
      stringifyTurn t ++ ts.flatMap (fun u => ',' :: stringifyTurn u) := by
  induction ts generalizing t with
  | nil => simp [List.intercalate]
  | cons u us ih =>
    have h := ih u
    simp only [List.intercalate, List.map_cons, List.intersperse, List.flatten_cons,
      List.flatMap_cons] at h ⊢
    rw [h]
    simp

theorem length_le_flatMap (ts : List Turn) :
    ts.length ≤ (ts.flatMap (fun u => ',' :: stringifyTurn u)).length := by
  induction ts with
  | nil => simp
  | cons u us ih => simp only [List.flatMap_cons, List.length_append, List.length_cons]; omega

theorem parseTurnsRest_flatMap (ts : List Turn) (fuel : Nat) (h : ts.length < fuel) :
    parseTurnsRest fuel (ts.flatMap (fun u => ',' :: stringifyTurn u) ++ [']']) = some ts := by
  induction ts generalizing fuel with
  | nil =>
    obtain ⟨k, rfl⟩ : ∃ k, fuel = k + 1 := ⟨fuel - 1, by simp at h; omega⟩
    simp [parseTurnsRest]
  | cons u us ih =>
    obtain ⟨k, rfl⟩ : ∃ k, fuel = k + 1 := ⟨fuel - 1, by simp at h; omega⟩
    have hk : us.length < k := by simp at h; omega
    simp only [List.flatMap_cons, List.cons_append, List.append_assoc, parseTurnsRest,
      parseTurn_stringifyTurn, ih k hk]

/-- Reading back what `JSON.stringify` wrote returns the turns. -/
theorem jsonParse_jsonStringify (ts : List Turn) : jsonParse (jsonStringify ts) = some ts := by
  cases ts with
  | nil => rfl
  | cons t ts =>
    obtain ⟨tail, htail⟩ := stringifyTurn_head t
    have hfuel : ts.length <
        (ts.flatMap (fun u => ',' :: stringifyTurn u) ++ [']']).length + 1 := by
      have := length_le_flatMap ts
      simp only [List.length_append, List.length_singleton]; omega
    have hdata : (jsonStringify (t :: ts)).data =
        '[' :: (stringifyTurn t ++ (ts.flatMap (fun u => ',' :: stringifyTurn u) ++ [']'])) := by
      unfold jsonStringify
      rw [intercalate_cons, List.append_assoc]
    unfold jsonParse
    rw [hdata]
    have hne : ∀ l : List Char, stringifyTurn t ++ l ≠ [']'] := by
      intro l hl; rw [htail] at hl; simp at hl
    split
    · next heq => exact absurd (List.cons.inj heq).2 (hne _)
    · next rest heq =>
      have hr := (List.cons.inj heq).2
      subst hr
      rw [parseTurn_stringifyTurn]
      simp only [parseTurnsRest_flatMap ts _ hfuel]
    · next h1 h2 => exact absurd rfl (h2 _)

/-- The text `JSON.stringify` writes is never the empty string. -/
theorem jsTruthy_jsonStringify (ts : List Turn) : jsTruthy (jsonStringify ts) = true := by
  simp [jsTruthy, jsonStringify]

/-! ## Lemmas on the Redis commands and the session store -/

theorem get_setEx_same (db : RedisDb) (now seconds t : Nat) (key value : String)
    (h : t < now + seconds) : (db.setEx now key seconds value).get t key = some value := by
  simp [RedisDb.get, RedisDb.setEx, h]

theorem get_setEx_expired (db : RedisDb) (now seconds t : Nat) (key value : String)
    (h : now + seconds ≤ t) : (db.setEx now key seconds value).get t key = none := by
  simp [RedisDb.get, RedisDb.setEx, Nat.not_lt.mpr h]

theorem get_of_no_live_entry (db : RedisDb) (t : Nat) (key : String)
    (h : ∀ e ∈ db, e.key = key → e.expireAt ≤ t) : db.get t key = none := by
  unfold RedisDb.get
  cases hf : db.find? (fun e => e.key == key) with
  | none => rfl
  | some e =>
    have hmem := List.mem_of_find?_eq_some hf
    have hkey : e.key = key := by simpa using List.find?_some hf
    simp [Nat.not_lt.mpr (h e hmem hkey)]

theorem get_del_same (db : RedisDb) (t : Nat) (key : String) : (db.del key).get t key = none := by
  apply get_of_no_live_entry
  intro e he hkey
  simp [RedisDb.del, List.mem_filter] at he
  exact absurd hkey he.2

theorem del_of_absent (db : RedisDb) (key : String) (h : ∀ e ∈ db, e.key ≠ key) :
    db.del key = db := by
  unfold RedisDb.del
  rw [List.filter_eq_self]
  intro e he
  simpa using h e he

theorem setEx_setEx (db : RedisDb) (t1 t2 s1 s2 : Nat) (key v1 v2 : String) :
    (db.setEx t1 key s1 v1).setEx t2 key s2 v2 = db.setEx t2 key s2 v2 := by
  simp [RedisDb.setEx, List.filter_filter]

theorem getChatHistory_of_get_none (db : RedisDb) (call : RedisCall) (sessionId : String)
    (hcall : call.fault = none) (hget : db.get call.now (sessionKey sessionId) = none) :
    (RedisService.mk (some db)).getChatHistory call sessionId = .ok [] := by
  simp [RedisService.getChatHistory, hcall, hget]

theorem storeChatHistory_ok (db : RedisDb) (call : RedisCall) (sessionId : String)
    (messages : List Turn) (hcall : call.fault = none) :
    (RedisService.mk (some db)).storeChatHistory call sessionId messages =
      .ok ⟨some (db.setEx call.now (sessionKey sessionId) 3600 (jsonStringify messages))⟩ := by
  simp only [RedisService.storeChatHistory, hcall]

theorem clearChatHistory_ok (db : RedisDb) (call : RedisCall) (sessionId : String)
    (hcall : call.fault = none) :
    (RedisService.mk (some db)).clearChatHistory call sessionId =
      .ok ⟨some (db.del (sessionKey sessionId))⟩ := by
  simp only [RedisService.clearChatHistory, hcall]

/-! ## Lemmas on the response generator -/

theorem mapIdx_title_lines (context : List ScoredPoint) (titles : List String) (k : Nat)
    (h : context.map (fun a => a.payload.lookup "title") = titles.map some) :
    context.mapIdx (fun index article =>
        toString (index + k) ++ ". " ++ jsTemplate (article.payload.lookup "title")) =
      List.zipWith (fun i t => toString i ++ ". " ++ t) (List.range' k titles.length) titles := by
  induction context generalizing titles k with
  | nil =>
    cases titles with
    | nil => rfl
    | cons t ts => simp at h
  | cons a as ih =>
    cases titles with
    | nil => simp at h
    | cons t ts =>
      simp only [List.map_cons, List.cons.injEq] at h
      rw [List.mapIdx_cons, List.length_cons, List.range'_succ, List.zipWith_cons_cons]
      have hrec := ih ts (k + 1) h.2
      have hfun : (fun i (article : ScoredPoint) =>
          toString (i + 1 + k) ++ ". " ++ jsTemplate (article.payload.lookup "title")) =
          (fun i (article : ScoredPoint) =>
          toString (i + (k + 1)) ++ ". " ++ jsTemplate (article.payload.lookup "title")) := by
        funext i article
        rw [Nat.add_assoc, Nat.add_comm 1 k]
      rw [hfun, hrec, h.1, Nat.zero_add]
      rfl

theorem fallbackTitleLines_eq (context : List ScoredPoint) (titles : List String)
    (h : context.map (fun a => a.payload.lookup "title") = titles.map some) :
    fallbackTitleLines context = numberedTitles titles :=
  mapIdx_title_lines context titles 1 h

theorem getFallbackResponse_split (query : String) (context : List ScoredPoint)
    (errorMsg : String) :
    getFallbackResponse query context errorMsg =
      ("I found " ++ toString context.length ++
        " relevant news articles for your question about \"" ++ query ++ "\":\n\n") ++
      jsJoin "\n" (fallbackTitleLines context) ++
      ("\n\n" ++
        (if jsTruthy errorMsg then "Note: " ++ errorMsg
         else "I am currently experiencing issues with the AI service.") ++
        "\n\nIn a fully working system, I would provide a detailed summary based on the content of these articles.") := by
  unfold getFallbackResponse
  simp only [String.append_assoc]

theorem generateResponse_eq_of_model (svc : GeminiService) (api : GenerativeBackend)
    (query modelName : String) (context : List ScoredPoint) (chatHistory : List Turn)
    (hmodel : svc.ensureModel api = .ok modelName) :
    svc.generateResponse api query context chatHistory =
      (.ok (match generateAttempt api modelName query context chatHistory with
        | .ok answer => answer
        | .error message => generateRecover query context message), ⟨some modelName⟩) := by
  unfold GeminiService.generateResponse
  rw [hmodel]
  simp only
  cases generateAttempt api modelName query context chatHistory <;> rfl

theorem generateResponse_of_no_model (svc : GeminiService) (api : GenerativeBackend)
    (query e : String) (context : List ScoredPoint) (chatHistory : List Turn)
    (hmodel : svc.ensureModel api = .error e) :
    svc.generateResponse api query context chatHistory = (.error e, svc) := by
  unfold GeminiService.generateResponse
  rw [hmodel]

/-- With a model in use, `generateResponse` returns, and what it returns is the text of
the completion or a fallback response. -/
theorem generateResponse_of_model (svc : GeminiService) (api : GenerativeBackend)
    (query modelName : String) (context : List ScoredPoint) (chatHistory : List Turn)
    (hmodel : svc.ensureModel api = .ok modelName) :
    ∃ answer, svc.generateResponse api query context chatHistory =
        (.ok answer, ⟨some modelName⟩) ∧
      ((∃ prompt response, api modelName prompt = .ok response ∧ response.text = .ok answer) ∨
        ∃ note, answer = getFallbackResponse query context note) := by
  rw [generateResponse_eq_of_model svc api query modelName context chatHistory hmodel]
  cases hatt : generateAttempt api modelName query context chatHistory with
  | error message =>
    refine ⟨_, rfl, Or.inr ?_⟩
    show ∃ note, generateRecover query context message = getFallbackResponse query context note
    unfold generateRecover
    split_ifs
    · exact ⟨_, rfl⟩
    · exact ⟨_, rfl⟩
    · exact ⟨_, rfl⟩
  | ok answer =>
    refine ⟨answer, rfl, ?_⟩
    unfold generateAttempt at hatt
    cases hctx : formatContext context with
    | error e => simp [hctx] at hatt
    | ok contextText =>
      cases hcall : api modelName (buildPrompt contextText (formatHistory chatHistory) query) with
      | error e => simp [hctx, hcall] at hatt
      | ok response =>
        simp only [hctx, hcall] at hatt
        split_ifs at hatt with hs
        · exact Or.inr ⟨_, (Except.ok.inj hatt).symm⟩
        · cases htext : response.text with
          | error e => simp [htext] at hatt
          | ok responseText =>
            simp only [htext] at hatt
            split_ifs at hatt with he
            · exact Or.inr ⟨_, (Except.ok.inj hatt).symm⟩
            · have := Except.ok.inj hatt
              subst this
              exact Or.inl ⟨_, response, hcall, htext⟩

theorem generateAttempt_of_call (api : GenerativeBackend) (query modelName contextText : String)
    (context : List ScoredPoint) (chatHistory : List Turn) (response : GenerateContentResponse)
    (hcontext : formatContext context = .ok contextText)
    (hcall : api modelName (buildPrompt contextText (formatHistory chatHistory) query) =
      .ok response) :
    generateAttempt api modelName query context chatHistory =
      if (response.candidates.head?.map (fun c => c.finishReason)) = some "SAFETY" then
        .ok (getFallbackResponse query context "Response was blocked by safety filters.")
      else
        match response.text with
        | .error e => .error e
        | .ok responseText =>
          if !jsTruthy responseText || jsTrim responseText = "" then
            .ok (getFallbackResponse query context "Received empty response from AI service.")
          else .ok responseText := by
  unfold generateAttempt
  simp only [hcontext, hcall]

/-! ## Lemmas on the vector store and the handler -/

/-- The model of Qdrant's search keeps the promise of `SearchContract`. -/
theorem qdrantSearch_contract (sim : Embedding → Embedding → ℚ) (points : List StoredPoint) :
    SearchContract (fun _ req => .ok (qdrantSearch sim points req)) := by
  intro collection req results h
  have hres := Except.ok.inj h
  subst hres
  unfold qdrantSearch
  refine ⟨?_, ?_, ?_⟩
  · exact (List.sorted_insertionSort scoreGe _).sublist (List.take_sublist _ _)
  · intro r hr
    have h1 := List.mem_of_mem_take hr
    have h2 := (List.perm_insertionSort scoreGe _).mem_iff.mp h1
    simpa using (List.mem_filter.mp h2).2
  · exact (List.length_take_le _ _)

/-- The search over the three sample points: the two hits at or above 0.5, best first. -/
theorem searchSimilar_samplePoints :
    VectorStoreService.new.searchSimilar sampleQdrant "What happened in the election?" 3 =
      .ok [⟨"p2", 0.8, [("text", "Votes were counted on Sunday."),
              ("title", "Election results announced")]⟩,
           ⟨"p1", 0.6, [("text", "Turnout reached a record."), ("title", "Record turnout")]⟩] := by
  simp [VectorStoreService.searchSimilar, getEmbedding, sampleQdrant, jsTruthy, qdrantSearch,
    samplePoints, sampleSimilarity, VectorStoreService.new]
  norm_num [scoreGe, List.insertionSort, List.orderedInsert]

/-- The events of every exchange have one of four shapes. -/
theorem sendMessage_events_shape (svcs : Services) (x : Exchange) (message sessionId : String) :
    (sendMessage svcs x message sessionId).events = [Event.error "Message cannot be empty"] ∨
      (∃ e, (sendMessage svcs x message sessionId).events = failureEvents e) ∨
      (∃ e, (sendMessage svcs x message sessionId).events =
        Event.bot_typing true :: failureEvents e) ∨
      (∃ m, (sendMessage svcs x message sessionId).events =
        [Event.bot_typing true, Event.receive_message m, Event.bot_typing false]) := by
  by_cases htr : jsTruthy (jsTrim message) = true
  swap
  · left; simp [sendMessage, htr]
  cases hload : svcs.redis.getChatHistory x.load sessionId with
  | error e => right; left; exact ⟨e, by simp [sendMessage, htr, hload]⟩
  | ok stored =>
    cases hsearch : svcs.vectorStore.searchSimilar x.vector message 3 with
    | error e => right; right; left; exact ⟨e, by simp [sendMessage, htr, hload, hsearch]⟩
    | ok articles =>
      rcases hg : svcs.gemini.generateResponse x.generative message articles
        (stored ++ [⟨"user", message, x.userTimestamp⟩]) with ⟨r, g⟩
      cases r with
      | error e => right; right; left; exact ⟨e, by simp [sendMessage, htr, hload, hsearch, hg]⟩
      | ok answer =>
        cases hstore : svcs.redis.storeChatHistory x.persist sessionId
          (stored ++ [⟨"user", message, x.userTimestamp⟩,
            ⟨"assistant", answer, x.botTimestamp⟩]) with
        | error e =>
          right; right; left
          exact ⟨e, by simp [sendMessage, htr, hload, hsearch, hg, hstore]⟩
        | ok redis =>
          right; right; right
          exact ⟨⟨"assistant", answer, x.botTimestamp⟩,
            by simp [sendMessage, htr, hload, hsearch, hg, hstore]⟩

/-! ## The chat exchange that succeeds -/

/-- Claim C1: for a message that is non-empty after trimming and a stored history `h`,
when history load, retrieval, generation and persistence all succeed, the handler emits
exactly `bot_typing true`, one `receive_message` carrying the assistant turn whose content
is the generator's result, and `bot_typing false`; the session store then holds, and a
read before the expiry returns, `h` followed by the user turn and that assistant turn,
`|h| + 2` turns in all. -/
theorem sendMessage_success (svcs : Services) (x : Exchange) (message sessionId answer : String)
    (h : List Turn) (articles : List ScoredPoint) (redis : RedisService) (read : RedisCall)
    (hmsg : jsTrim message ≠ "")
    (hload : svcs.redis.getChatHistory x.load sessionId = .ok h)
    (hsearch : svcs.vectorStore.searchSimilar x.vector message 3 = .ok articles)
    (hgen : (svcs.gemini.generateResponse x.generative message articles
      (h ++ [⟨"user", message, x.userTimestamp⟩])).1 = .ok answer)
    (hpersist : svcs.redis.storeChatHistory x.persist sessionId
      (h ++ [⟨"user", message, x.userTimestamp⟩, ⟨"assistant", answer, x.botTimestamp⟩]) =
        .ok redis)
    (hread : read.fault = none) (hlive : read.now < x.persist.now + 3600) :
    (sendMessage svcs x message sessionId).events =
        [Event.bot_typing true, Event.receive_message ⟨"assistant", answer, x.botTimestamp⟩,
          Event.bot_typing false] ∧
      (sendMessage svcs x message sessionId).services.redis = redis ∧
      redis.getChatHistory read sessionId =
        .ok (h ++ [⟨"user", message, x.userTimestamp⟩, ⟨"assistant", answer, x.botTimestamp⟩]) ∧
      (h ++ [(⟨"user", message, x.userTimestamp⟩ : Turn),
        ⟨"assistant", answer, x.botTimestamp⟩]).length = h.length + 2 := by
  have htr : jsTruthy (jsTrim message) = true := (jsTruthy_iff _).mpr hmsg
  rcases hg : svcs.gemini.generateResponse x.generative message articles
      (h ++ [⟨"user", message, x.userTimestamp⟩]) with ⟨r, g⟩
  rw [hg] at hgen
  simp only at hgen
  subst hgen
  refine ⟨?_, ?_, ?_, by simp⟩
  · simp [sendMessage, htr, hload, hsearch, hg, hpersist]
  · simp [sendMessage, htr, hload, hsearch, hg, hpersist]
  · unfold RedisService.storeChatHistory at hpersist
    cases hc : svcs.redis.client with
    | none => simp [hc] at hpersist
    | some db =>
      cases hf : x.persist.fault with
      | some msg => simp [hc, hf] at hpersist
      | none =>
        simp only [hc, hf, Except.ok.injEq] at hpersist
        subst hpersist
        simp only [RedisService.getChatHistory, hread, get_setEx_same _ _ _ _ _ _ hlive,
          jsTruthy_jsonStringify, jsonParse_jsonStringify, if_true, List.append_assoc,
          List.singleton_append]

/-- The first exchange of session `s1`, with no prior history and two retrieved
articles: three events, and the two turns read back from the stored text. -/
theorem sendMessage_success_witness :
    (sendMessage sampleServices sampleExchange "What happened in the election?" "s1").events =
        [Event.bot_typing true,
          Event.receive_message ⟨"assistant",
            "OK. According to Source 1, the votes were counted on Sunday.",
            "2024-05-01T10:00:02.000Z"⟩,
          Event.bot_typing false] ∧
      (RedisService.mk (some [⟨"session:s1:history", jsonStringify
          [⟨"user", "What happened in the election?", "2024-05-01T10:00:00.000Z"⟩,
           ⟨"assistant", "OK. According to Source 1, the votes were counted on Sunday.",
            "2024-05-01T10:00:02.000Z"⟩], 3701⟩])).getChatHistory ⟨200, none⟩ "s1" =
        .ok [⟨"user", "What happened in the election?", "2024-05-01T10:00:00.000Z"⟩,
           ⟨"assistant", "OK. According to Source 1, the votes were counted on Sunday.",
            "2024-05-01T10:00:02.000Z"⟩] :=
  have h := sendMessage_success sampleServices sampleExchange "What happened in the election?"
    "s1" "OK. According to Source 1, the votes were counted on Sunday." [] sampleArticles
    _ ⟨200, none⟩ (by decide) rfl rfl rfl rfl rfl (by decide)
  ⟨h.1, h.2.2.1⟩

/-! ## Failures of generation -/

/-- Claim C2, at the failing input: with no model adopted and a backend that rejects
every probe, `generateResponse` throws the error of `initializeModel` to its caller,
while `healthCheck`, whose call of `initializeModel` stands inside its `try`, returns
`false` on the same backend. -/
theorem generateResponse_throws_without_model :
    ((GeminiService.mk none).generateResponse sampleGenerativeDown "What happened?"
        sampleArticles []).1 =
        .error "No working Gemini model found. Please check your API key." ∧
      ((GeminiService.mk none).healthCheck sampleGenerativeDown).1 = false :=
  ⟨rfl, rfl⟩

/-- Claim C3 fails as stated: on a completion whose first candidate stops for the
reason `OTHER` and that carries text, `generateResponse` returns that text, which no
fallback response equals. -/
theorem generateResponse_other_keeps_model_text :
    (sampleGemini.generateResponse sampleGenerativeOther "What happened?" sampleArticles []).1 =
        .ok "The votes were counted on Sunday." ∧
      ∀ note, getFallbackResponse "What happened?" sampleArticles note ≠
        "The votes were counted on Sunday." := by
  constructor
  · rfl
  · intro note h
    have hd := congrArg (fun s => s.data.head?) h
    simp [getFallbackResponse, String.data_append] at hd

/-- On the sample completion stopped for `RECITATION` the method returns the fallback
response whose note carries the message the accessor threw. -/
theorem generateResponse_recitation_sample :
    (sampleGemini.generateResponse sampleGenerativeRecitation "What happened?"
        sampleArticles []).1 =
      .ok (getFallbackResponse "What happened?" sampleArticles
        "AI service error: Candidate was blocked due to RECITATION") :=
  rfl

/-- Claim C3, amended: when the first candidate reports `RECITATION`, on which the SDK's
text accessor throws, `generateResponse` returns the templated fallback response; when it
reports `OTHER`, the reason is only logged and `generateResponse` returns the text of the
completion unless that text is blank after trimming, in which case it returns the fallback
response with the empty-response note. -/
theorem generateResponse_other_recitation (svc : GeminiService) (api : GenerativeBackend)
    (query modelName contextText reason : String) (context : List ScoredPoint)
    (chatHistory : List Turn) (response : GenerateContentResponse) (rest : List Candidate)
    (hmodel : svc.ensureModel api = .ok modelName)
    (hcontext : formatContext context = .ok contextText)
    (hcall : api modelName (buildPrompt contextText (formatHistory chatHistory) query) =
      .ok response)
    (hfirst : response.candidates = ⟨reason⟩ :: rest)
    (hsdk : SdkTextContract response) :
    (reason = "RECITATION" →
      ∃ note, (svc.generateResponse api query context chatHistory).1 =
        .ok (getFallbackResponse query context note)) ∧
    (reason = "OTHER" → ∀ responseText, response.text = .ok responseText →
      (svc.generateResponse api query context chatHistory).1 =
        .ok (if jsTrim responseText = "" then
            getFallbackResponse query context "Received empty response from AI service."
          else responseText)) := by
  rw [generateResponse_eq_of_model svc api query modelName context chatHistory hmodel,
    generateAttempt_of_call api query modelName contextText context chatHistory response
      hcontext hcall]
  constructor
  · intro hreason
    subst hreason
    have hns : ¬ (response.candidates.head?.map (fun c => c.finishReason)) = some "SAFETY" := by
      rw [hfirst]; simp
    obtain ⟨message, hthrow⟩ := hsdk ⟨"RECITATION"⟩ rest hfirst (by simp [badFinishReasons])
    rw [if_neg hns, hthrow]
    show ∃ note, Except.ok (generateRecover query context message) =
      Except.ok (getFallbackResponse query context note)
    unfold generateRecover
    split_ifs
    · exact ⟨_, rfl⟩
    · exact ⟨_, rfl⟩
    · exact ⟨_, rfl⟩
  · intro hreason responseText htext
    subst hreason
    have hns : ¬ (response.candidates.head?.map (fun c => c.finishReason)) = some "SAFETY" := by
      rw [hfirst]; simp
    rw [if_neg hns, htext]
    by_cases hblank : jsTrim responseText = ""
    · simp [hblank]
    · have htruthy : jsTruthy responseText = true := by
        by_contra hc
        exact hblank (jsTrim_of_not_truthy _ (by simpa using hc))
      simp [hblank, htruthy]

/-- The amended claim on the sample completions stopped for `RECITATION` and for
`OTHER`. -/
theorem generateResponse_other_recitation_witness :
    (∃ note, (sampleGemini.generateResponse sampleGenerativeRecitation "What happened?"
        sampleArticles []).1 =
        .ok (getFallbackResponse "What happened?" sampleArticles note)) ∧
      (sampleGemini.generateResponse sampleGenerativeOther "What happened?"
          sampleArticles []).1 =
        .ok (if jsTrim "The votes were counted on Sunday." = "" then
            getFallbackResponse "What happened?" sampleArticles
              "Received empty response from AI service."
          else "The votes were counted on Sunday.") :=
  ⟨(generateResponse_other_recitation sampleGemini sampleGenerativeRecitation "What happened?"
      "models/gemini-2.5-flash" _ "RECITATION" sampleArticles []
      ⟨[⟨"RECITATION"⟩], .error "Candidate was blocked due to RECITATION"⟩ [] rfl rfl rfl rfl
      (fun _ _ _ _ => ⟨_, rfl⟩)).1 rfl,
    (generateResponse_other_recitation sampleGemini sampleGenerativeOther "What happened?"
      "models/gemini-2.5-flash" _ "OTHER" sampleArticles []
      ⟨[⟨"OTHER"⟩], .ok "The votes were counted on Sunday."⟩ [] rfl rfl rfl rfl
      (fun c rest h hbad => by
        have hc : c = ⟨"OTHER"⟩ := ((List.cons.inj h).1).symm
        subst hc
        simp [badFinishReasons] at hbad)).2 rfl "The votes were counted on Sunday." rfl⟩

/-- Claim C4: when the generation call reports a safety block (the first candidate's
finish reason is `SAFETY`) on a context of articles with titles, `generateResponse`
returns instead of throwing, and what it returns is a non-empty string that holds the
safety note and the titles of the retrieved articles, numbered `1..n` in context order. -/
theorem generateResponse_safety_block (svc : GeminiService) (api : GenerativeBackend)
    (query modelName contextText : String) (context : List ScoredPoint)
    (chatHistory : List Turn) (titles : List String) (response : GenerateContentResponse)
    (rest : List Candidate)
    (hmodel : svc.ensureModel api = .ok modelName)
    (htitles : context.map (fun a => a.payload.lookup "title") = titles.map some)
    (hcontext : formatContext context = .ok contextText)
    (hcall : api modelName (buildPrompt contextText (formatHistory chatHistory) query) =
      .ok response)
    (hsafety : response.candidates = ⟨"SAFETY"⟩ :: rest) :
    ∃ answer, (svc.generateResponse api query context chatHistory).1 = .ok answer ∧
      answer ≠ "" ∧
      jsIncludes answer "Note: Response was blocked by safety filters." = true ∧
      (∃ pre post, answer = pre ++ jsJoin "\n" (numberedTitles titles) ++ post) ∧
      ∀ line ∈ numberedTitles titles, jsIncludes answer line = true := by
  refine ⟨getFallbackResponse query context "Response was blocked by safety filters.", ?_, ?_,
    ?_, ?_, ?_⟩
  · rw [generateResponse_eq_of_model svc api query modelName context chatHistory hmodel,
      generateAttempt_of_call api query modelName contextText context chatHistory response
        hcontext hcall, hsafety]
    simp
  · intro h
    have hd := congrArg (fun s => s.data.head?) h
    simp [getFallbackResponse, String.data_append] at hd
  · unfold getFallbackResponse
    exact jsIncludes_append _ _ _
  · rw [getFallbackResponse_split, fallbackTitleLines_eq context titles htitles]
    exact ⟨_, _, rfl⟩
  · intro line hline
    have h1 : jsIncludes (jsJoin "\n" (numberedTitles titles)) line = true :=
      jsIncludes_jsJoin "\n" _ line hline
    refine jsIncludes_trans _ _ _ ?_ h1
    rw [getFallbackResponse_split, fallbackTitleLines_eq context titles htitles]
    exact jsIncludes_append _ _ _

/-- The safety block on the two sample articles. -/
theorem generateResponse_safety_block_witness :
    ∃ answer, (sampleGemini.generateResponse sampleGenerativeSafety "What happened?"
        sampleArticles []).1 = .ok answer ∧
      answer ≠ "" ∧
      jsIncludes answer "Note: Response was blocked by safety filters." = true ∧
      (∃ pre post, answer = pre ++
        jsJoin "\n" (numberedTitles ["Election results announced", "Record turnout"]) ++ post) ∧
      ∀ line ∈ numberedTitles ["Election results announced", "Record turnout"],
        jsIncludes answer line = true :=
  generateResponse_safety_block sampleGemini sampleGenerativeSafety "What happened?"
    "models/gemini-2.5-flash" _ sampleArticles [] ["Election results announced", "Record turnout"]
    ⟨[⟨"SAFETY"⟩], .error "Response was blocked due to SAFETY"⟩ [] rfl rfl rfl rfl rfl

/-! ## Exchanges that are refused or fail -/

/-- Claim C5: on a message that is empty or holds only white space the handler emits the
single event `error` and nothing else, calls no service (so no session-store read or
write), and leaves the services, the stored histories with them, as they were. -/
theorem sendMessage_blank (svcs : Services) (x : Exchange) (message sessionId : String)
    (hblank : ∀ c ∈ message.data, isJsWhitespace c = true) :
    (sendMessage svcs x message sessionId).events = [Event.error "Message cannot be empty"] ∧
      (sendMessage svcs x message sessionId).calls = [] ∧
      (sendMessage svcs x message sessionId).services = svcs := by
  have htrim : jsTrim message = "" := jsTrim_of_all_whitespace message hblank
  have htr : jsTruthy (jsTrim message) = false := by rw [htrim]; rfl
  simp [sendMessage, htr]

/-- A message of blanks, a tab and a line feed. -/
theorem sendMessage_blank_witness :
    (sendMessage sampleServices sampleExchange " \t\n " "s1").events =
        [Event.error "Message cannot be empty"] ∧
      (sendMessage sampleServices sampleExchange " \t\n " "s1").calls = [] ∧
      (sendMessage sampleServices sampleExchange " \t\n " "s1").services = sampleServices :=
  sendMessage_blank sampleServices sampleExchange " \t\n " "s1" (by decide)

/-- Claim C6: whenever the handler has emitted `bot_typing true`, the last event of the
exchange is `bot_typing false`; the exchange is then either the three events of a
delivered answer or `bot_typing true`, an `error` event, `bot_typing false`. -/
theorem sendMessage_typing_cleared (svcs : Services) (x : Exchange) (message sessionId : String)
    (htyping : Event.bot_typing true ∈ (sendMessage svcs x message sessionId).events) :
    (sendMessage svcs x message sessionId).events.getLast? = some (Event.bot_typing false) ∧
      ((∃ m, (sendMessage svcs x message sessionId).events =
          [Event.bot_typing true, Event.receive_message m, Event.bot_typing false]) ∨
        (∃ e, (sendMessage svcs x message sessionId).events =
          [Event.bot_typing true, Event.error e, Event.bot_typing false])) := by
  rcases sendMessage_events_shape svcs x message sessionId with h | ⟨e, h⟩ | ⟨e, h⟩ | ⟨m, h⟩
  · rw [h] at htyping; simp at htyping
  · rw [h] at htyping; simp [failureEvents] at htyping
  · rw [h]; exact ⟨rfl, Or.inr ⟨_, rfl⟩⟩
  · rw [h]; exact ⟨rfl, Or.inl ⟨_, rfl⟩⟩

/-- An exchange whose retrieval fails after the typing signal was raised. -/
theorem sendMessage_typing_cleared_witness :
    (sendMessage sampleServices sampleExchangeNoSearch "What happened?" "s1").events.getLast? =
        some (Event.bot_typing false) ∧
      ((∃ m, (sendMessage sampleServices sampleExchangeNoSearch "What happened?" "s1").events =
          [Event.bot_typing true, Event.receive_message m, Event.bot_typing false]) ∨
        (∃ e, (sendMessage sampleServices sampleExchangeNoSearch "What happened?" "s1").events =
          [Event.bot_typing true, Event.error e, Event.bot_typing false])) :=
  sendMessage_typing_cleared sampleServices sampleExchangeNoSearch "What happened?" "s1"
    (by decide)

/-- Claim C7: for a non-empty message, a failure of the history load, of retrieval or of
persistence makes the handler emit an `error` event and no `receive_message`; when the
load or the retrieval fails, `storeChatHistory` is not called and the session store is
what it was before the exchange. -/
theorem sendMessage_dependency_failure (svcs : Services) (x : Exchange)
    (message sessionId : String) (hmsg : jsTrim message ≠ "") :
    (∀ e, svcs.redis.getChatHistory x.load sessionId = .error e →
      (sendMessage svcs x message sessionId).events =
          [Event.error ("Failed to process message: " ++ e), Event.bot_typing false] ∧
        (∀ sid ms, ServiceCall.storeChatHistory sid ms ∉
          (sendMessage svcs x message sessionId).calls) ∧
        (sendMessage svcs x message sessionId).services.redis = svcs.redis) ∧
    (∀ h e, svcs.redis.getChatHistory x.load sessionId = .ok h →
      svcs.vectorStore.searchSimilar x.vector message 3 = .error e →
      (sendMessage svcs x message sessionId).events =
          [Event.bot_typing true, Event.error ("Failed to process message: " ++ e),
            Event.bot_typing false] ∧
        (∀ sid ms, ServiceCall.storeChatHistory sid ms ∉
          (sendMessage svcs x message sessionId).calls) ∧
        (sendMessage svcs x message sessionId).services.redis = svcs.redis) ∧
    (∀ h articles answer e, svcs.redis.getChatHistory x.load sessionId = .ok h →
      svcs.vectorStore.searchSimilar x.vector message 3 = .ok articles →
      (svcs.gemini.generateResponse x.generative message articles
        (h ++ [⟨"user", message, x.userTimestamp⟩])).1 = .ok answer →
      svcs.redis.storeChatHistory x.persist sessionId
        (h ++ [⟨"user", message, x.userTimestamp⟩, ⟨"assistant", answer, x.botTimestamp⟩]) =
          .error e →
      (sendMessage svcs x message sessionId).events =
          [Event.bot_typing true, Event.error ("Failed to process message: " ++ e),
            Event.bot_typing false] ∧
        (sendMessage svcs x message sessionId).services.redis = svcs.redis) := by
  have htr : jsTruthy (jsTrim message) = true := (jsTruthy_iff _).mpr hmsg
  refine ⟨?_, ?_, ?_⟩
  · intro e hload
    simp [sendMessage, htr, hload, failureEvents]
  · intro h e hload hsearch
    simp [sendMessage, htr, hload, hsearch, failureEvents]
  · intro h articles answer e hload hsearch hgen hstore
    rcases hg : svcs.gemini.generateResponse x.generative message articles
      (h ++ [⟨"user", message, x.userTimestamp⟩]) with ⟨r, g⟩
    rw [hg] at hgen
    simp only at hgen
    subst hgen
    simp [sendMessage, htr, hload, hsearch, hg, hstore, failureEvents]

/-- The retrieval failure of the sample exchange. -/
theorem sendMessage_dependency_failure_witness :
    (sendMessage sampleServices sampleExchangeNoSearch "What happened?" "s1").events =
        [Event.bot_typing true,
          Event.error ("Failed to process message: " ++ "timeout of 30000ms exceeded"),
          Event.bot_typing false] ∧
      (∀ sid ms, ServiceCall.storeChatHistory sid ms ∉
        (sendMessage sampleServices sampleExchangeNoSearch "What happened?" "s1").calls) ∧
      (sendMessage sampleServices sampleExchangeNoSearch "What happened?" "s1").services.redis =
        sampleServices.redis :=
  (sendMessage_dependency_failure sampleServices sampleExchangeNoSearch "What happened?" "s1"
    (by decide)).2.1 [] "timeout of 30000ms exceeded" rfl rfl

/-! ## Retrieval -/

/-- Claim C8: over a Qdrant search that keeps its contract, whatever `searchSimilar`
returns for a query and a limit is ordered by non-increasing score, holds no score under
0.5 and has at most `limit` elements. The query need not even be non-empty. -/
theorem searchSimilar_ranked (svc : VectorStoreService) (backend : VectorBackend)
    (query : String) (limit : Nat) (results : List ScoredPoint)
    (hcontract : SearchContract backend.search)
    (hres : svc.searchSimilar backend query limit = .ok results) :
    results.Pairwise (fun a b => b.score ≤ a.score) ∧
      (∀ r ∈ results, (0.5 : ℚ) ≤ r.score) ∧ results.length ≤ limit := by
  unfold VectorStoreService.searchSimilar at hres
  cases hemb : getEmbedding backend query with
  | error e => simp [hemb] at hres
  | ok queryEmbedding =>
    simp only [hemb] at hres
    exact hcontract _ _ _ hres

/-- The claim on the model of Qdrant's search over the three sample points. -/
theorem searchSimilar_ranked_witness :
    (qdrantSearch sampleSimilarity samplePoints ⟨[1, 0], 3, true, 0.5⟩).Pairwise
        (fun a b => b.score ≤ a.score) ∧
      (∀ r ∈ qdrantSearch sampleSimilarity samplePoints ⟨[1, 0], 3, true, 0.5⟩,
        (0.5 : ℚ) ≤ r.score) ∧
      (qdrantSearch sampleSimilarity samplePoints ⟨[1, 0], 3, true, 0.5⟩).length ≤ 3 :=
  searchSimilar_ranked VectorStoreService.new sampleQdrant "What happened in the election?" 3
    _ (qdrantSearch_contract sampleSimilarity samplePoints) rfl

/-! ## The session store -/

/-- Claim C9: with the client connected and both commands reaching the server,
`storeChatHistory(id, turns)` followed by `getChatHistory(id)` less than 3600 seconds
later returns `turns`; and a store that follows an earlier store for the same id leaves
exactly what it would have left without the earlier one, so the read returns the second
sequence. -/
theorem storeChatHistory_getChatHistory (db : RedisDb) (store read : RedisCall)
    (sessionId : String) (turns : List Turn)
    (hstore : store.fault = none) (hread : read.fault = none)
    (hlive : read.now < store.now + 3600) :
    (∃ stored, (RedisService.mk (some db)).storeChatHistory store sessionId turns = .ok stored ∧
      stored.getChatHistory read sessionId = .ok turns) ∧
    (∀ (earlier : RedisCall) (first : List Turn) (svc1 : RedisService),
      (RedisService.mk (some db)).storeChatHistory earlier sessionId first = .ok svc1 →
      svc1.storeChatHistory store sessionId turns =
          (RedisService.mk (some db)).storeChatHistory store sessionId turns ∧
        ∃ stored, svc1.storeChatHistory store sessionId turns = .ok stored ∧
          stored.getChatHistory read sessionId = .ok turns) := by
  have hround : ∀ d : RedisDb,
      (RedisService.mk (some (d.setEx store.now (sessionKey sessionId) 3600
        (jsonStringify turns)))).getChatHistory read sessionId = .ok turns := by
    intro d
    simp only [RedisService.getChatHistory, hread, get_setEx_same _ _ _ _ _ _ hlive,
      jsTruthy_jsonStringify, jsonParse_jsonStringify, if_true]
  refine ⟨⟨_, storeChatHistory_ok db store sessionId turns hstore, hround db⟩, ?_⟩
  intro earlier first svc1 h1
  unfold RedisService.storeChatHistory at h1
  cases hf : earlier.fault with
  | some msg => simp [hf] at h1
  | none =>
    simp only [hf, Except.ok.injEq] at h1
    subst h1
    refine ⟨?_, _, storeChatHistory_ok _ store sessionId turns hstore, hround _⟩
    rw [storeChatHistory_ok _ store sessionId turns hstore,
      storeChatHistory_ok _ store sessionId turns hstore, setEx_setEx]

/-- Two turns, one with quotes and a line feed, stored at second 100 and read at 3699. -/
theorem storeChatHistory_getChatHistory_witness :
    (∃ stored, (RedisService.mk (some [])).storeChatHistory ⟨100, none⟩ "s1" sampleTurns =
        .ok stored ∧
      stored.getChatHistory ⟨3699, none⟩ "s1" = .ok sampleTurns) ∧
    (∀ (earlier : RedisCall) (first : List Turn) (svc1 : RedisService),
      (RedisService.mk (some [])).storeChatHistory earlier "s1" first = .ok svc1 →
      svc1.storeChatHistory ⟨100, none⟩ "s1" sampleTurns =
          (RedisService.mk (some [])).storeChatHistory ⟨100, none⟩ "s1" sampleTurns ∧
        ∃ stored, svc1.storeChatHistory ⟨100, none⟩ "s1" sampleTurns = .ok stored ∧
          stored.getChatHistory ⟨3699, none⟩ "s1" = .ok sampleTurns) :=
  storeChatHistory_getChatHistory [] ⟨100, none⟩ ⟨3699, none⟩ "s1" sampleTurns rfl rfl
    (by decide)

/-- Claim C10: with the client connected and the command reaching the server,
`getChatHistory(id)` returns the empty sequence whenever the server holds no live entry
for the session: nothing stored or every entry expired, a history stored 3600 seconds ago
or earlier, and after `clearChatHistory(id)`, which succeeds in every state and changes
nothing when no entry is stored for the id. -/
theorem getChatHistory_empty_without_live_entry (db : RedisDb) (call : RedisCall)
    (sessionId : String) (hcall : call.fault = none) :
    ((∀ e ∈ db, e.key = sessionKey sessionId → e.expireAt ≤ call.now) →
      (RedisService.mk (some db)).getChatHistory call sessionId = .ok []) ∧
    (∀ (store : RedisCall) (turns : List Turn), store.fault = none →
      store.now + 3600 ≤ call.now →
      ∃ stored, (RedisService.mk (some db)).storeChatHistory store sessionId turns = .ok stored ∧
        stored.getChatHistory call sessionId = .ok []) ∧
    (∀ clear : RedisCall, clear.fault = none →
      ∃ cleared, (RedisService.mk (some db)).clearChatHistory clear sessionId = .ok cleared ∧
        cleared.getChatHistory call sessionId = .ok []) ∧
    (∀ clear : RedisCall, clear.fault = none → (∀ e ∈ db, e.key ≠ sessionKey sessionId) →
      (RedisService.mk (some db)).clearChatHistory clear sessionId =
        .ok (RedisService.mk (some db))) := by
  refine ⟨?_, ?_, ?_, ?_⟩
  · intro h
    exact getChatHistory_of_get_none db call sessionId hcall (get_of_no_live_entry db _ _ h)
  · intro store turns hstore hexp
    exact ⟨_, storeChatHistory_ok db store sessionId turns hstore,
      getChatHistory_of_get_none _ call sessionId hcall (get_setEx_expired _ _ _ _ _ _ hexp)⟩
  · intro clear hclear
    exact ⟨_, clearChatHistory_ok db clear sessionId hclear,
      getChatHistory_of_get_none _ call sessionId hcall (get_del_same _ _ _)⟩
  · intro clear hclear habsent
    rw [clearChatHistory_ok db clear sessionId hclear, del_of_absent db _ habsent]

/-- A history read at the second it expires, and read after it was cleared. -/
theorem getChatHistory_empty_without_live_entry_witness :
    (RedisService.mk (some [⟨"session:s1:history", jsonStringify sampleTurns, 3700⟩])).getChatHistory
        ⟨3700, none⟩ "s1" = .ok [] ∧
      ∃ cleared, (RedisService.mk (some [⟨"session:s1:history", jsonStringify sampleTurns,
          3700⟩])).clearChatHistory ⟨200, none⟩ "s1" = .ok cleared ∧
        cleared.getChatHistory ⟨3700, none⟩ "s1" = .ok [] :=
  have h := getChatHistory_empty_without_live_entry
    [⟨"session:s1:history", jsonStringify sampleTurns, 3700⟩] ⟨3700, none⟩ "s1" rfl
  ⟨h.1 (by decide), h.2.2.1 ⟨200, none⟩ rfl⟩

/-! ## Ingestion -/

theorem lookup_filter_key_ne (p : Payload) (k other : String) (h : k ≠ other) :
    (p.filter (fun kv => kv.1 != other)).lookup k = p.lookup k := by
  induction p with
  | nil => rfl
  | cons kv rest ih =>
    obtain ⟨a, b⟩ := kv
    by_cases ha : a = other
    · subst ha
      have hk : (k == a) = false := by simpa using h
      rw [List.filter_cons_of_neg (by simp), List.lookup_cons, hk, ih]
    · rw [List.filter_cons_of_pos (by simpa using ha), List.lookup_cons, List.lookup_cons, ih]

theorem jsSpread_text (text : String) (metadata : Payload) :
    jsSpread [("text", text)] metadata =
      ("text", (metadata.lookup "text").getD text) ::
        metadata.filter (fun kv => kv.1 != "text") := by
  unfold jsSpread
  have hp : (fun kv : String × String => ((([("text", text)] : Payload).lookup kv.1).isNone)) =
      (fun kv : String × String => kv.1 != "text") := by
    funext kv
    cases h : kv.1 == "text" <;> simp [List.lookup, h, bne]
  rw [hp]
  rfl

theorem lookup_jsSpread_text (text : String) (metadata : Payload) :
    (jsSpread [("text", text)] metadata).lookup "text" =
      some ((metadata.lookup "text").getD text) := by
  rw [jsSpread_text, List.lookup_cons]
  simp

theorem lookup_jsSpread_other (text k : String) (metadata : Payload) (h : k ≠ "text") :
    (jsSpread [("text", text)] metadata).lookup k = metadata.lookup k := by
  have hk : (k == "text") = false := by simpa using h
  rw [jsSpread_text, List.lookup_cons, hk]
  exact lookup_filter_key_ne metadata k "text" h

/-- Claim C11 fails as stated: for metadata that has a member named `text`, the point
`addDocument` upserts carries that member's value under the key `text`, not the given
text. -/
theorem addDocument_metadata_text_wins :
    getEmbedding sampleVector "Election results announced. Votes were counted." = .ok [1, 0] ∧
      (VectorStoreService.new.addDocument sampleVector none "doc-1"
          "Election results announced. Votes were counted." sampleMetadataWithText).requests =
        [QdrantRequest.upsert "news_articles" ⟨true, [⟨"doc-1", [1, 0],
          [("text", "Subscribe to read more."), ("title", "Election results announced")]⟩]⟩] ∧
      ([("text", "Subscribe to read more."), ("title", "Election results announced")] :
          Payload).lookup "text" ≠ some "Election results announced. Votes were counted." := by
  refine ⟨rfl, rfl, by decide⟩

/-- Claim C11, amended: when the embedding call succeeds, `addDocument` issues one upsert
of exactly one point, whose id is `id`, whose vector is the embedding of `text`, and whose
payload holds every member of `metadata` under its own key and nothing else besides the
key `text`; under `text` it holds the given text whenever `metadata` has no member of
that name. -/
theorem addDocument_upserts_one_point (svc : VectorStoreService) (backend : VectorBackend)
    (upserting : Option String) (id text : String) (metadata : Payload) (embedding : Embedding)
    (hembed : getEmbedding backend text = .ok embedding) :
    ∃ payload, (svc.addDocument backend upserting id text metadata).requests =
        [QdrantRequest.upsert svc.collectionName ⟨true, [⟨id, embedding, payload⟩]⟩] ∧
      (∀ k v, metadata.lookup k = some v → payload.lookup k = some v) ∧
      (metadata.lookup "text" = none → payload.lookup "text" = some text) ∧
      (∀ k, k ≠ "text" → payload.lookup k = metadata.lookup k) := by
  refine ⟨jsSpread [("text", text)] metadata, ?_, ?_, ?_, ?_⟩
  · unfold VectorStoreService.addDocument
    rw [hembed]
    cases upserting <;> rfl
  · intro k v hk
    by_cases hkt : k = "text"
    · subst hkt
      rw [lookup_jsSpread_text, hk]
      rfl
    · rw [lookup_jsSpread_other text k metadata hkt, hk]
  · intro hnone
    rw [lookup_jsSpread_text, hnone]
    rfl
  · intro k hk
    exact lookup_jsSpread_other text k metadata hk

/-- The amended claim on metadata as the ingestion script passes it. -/
theorem addDocument_upserts_one_point_witness :
    ∃ payload, (VectorStoreService.new.addDocument sampleVector none "doc-1"
        "Election results announced. Votes were counted." sampleMetadata).requests =
        [QdrantRequest.upsert "news_articles" ⟨true, [⟨"doc-1", [1, 0], payload⟩]⟩] ∧
      (∀ k v, sampleMetadata.lookup k = some v → payload.lookup k = some v) ∧
      (sampleMetadata.lookup "text" = none → payload.lookup "text" =
        some "Election results announced. Votes were counted.") ∧
      (∀ k, k ≠ "text" → payload.lookup k = sampleMetadata.lookup k) :=
  addDocument_upserts_one_point VectorStoreService.new sampleVector none "doc-1"
    "Election results announced. Votes were counted." sampleMetadata [1, 0] rfl

/-! ## Model selection -/

theorem jsTruthy_of_jsIncludes (text pat : String) (hpat : pat.data ≠ [])
    (h : jsIncludes text pat = true) : jsTruthy text = true := by
  unfold jsTruthy
  cases htext : text.data with
  | cons c cs => rfl
  | nil =>
    unfold jsIncludes at h
    rw [htext] at h
    cases hp : pat.data with
    | nil => exact absurd hp hpat
    | cons d ds => simp [hp, List.isPrefixOf] at h

theorem probeAccepts_eq_probeAcknowledged (api : GenerativeBackend) (modelName : String) :
    probeAccepts api modelName = probeAcknowledged api modelName := by
  unfold probeAccepts probeAcknowledged
  cases api modelName probePrompt with
  | error e => rfl
  | ok response =>
    obtain ⟨candidates, outcome⟩ := response
    cases outcome with
    | error e => rfl
    | ok text =>
      cases h : jsIncludes text "OK" with
      | false => simp [h]
      | true => simp [h, jsTruthy_of_jsIncludes text "OK" (by decide) h]

theorem probeModels_of_first (api : GenerativeBackend) (candidates : List String) (i : Nat)
    (modelName : String) (hget : candidates[i]? = some modelName)
    (hack : probeAccepts api modelName = true)
    (hearlier : ∀ e ∈ candidates.take i, probeAccepts api e = false) :
    probeModels api candidates = (candidates.take (i + 1), some modelName) := by
  induction candidates generalizing i with
  | nil => simp at hget
  | cons c cs ih =>
    cases i with
    | zero =>
      have hc : c = modelName := by simpa using hget
      subst hc
      simp [probeModels, hack]
    | succ k =>
      have hc : probeAccepts api c = false := hearlier c (by simp)
      have hrec := ih k (by simpa using hget) (fun e he => hearlier e (by simp [he]))
      simp [probeModels, hc, hrec]

theorem probeModels_of_none (api : GenerativeBackend) (candidates : List String)
    (hall : ∀ e ∈ candidates, probeAccepts api e = false) :
    probeModels api candidates = (candidates, none) := by
  induction candidates with
  | nil => rfl
  | cons c cs ih =>
    have hc : probeAccepts api c = false := hall c (by simp)
    have hrec := ih (fun e he => hall e (by simp [he]))
    simp [probeModels, hc, hrec]

/-- Claim C12: `initializeModel` adopts the earliest candidate of `AVAILABLE_MODELS` whose
probe returned text containing `OK`, every earlier candidate having thrown or returned
text without it, and probes no candidate after it; when no candidate's probe does, it
throws and leaves the service, the unset model with it, as it was, having probed them
all. -/
theorem initializeModel_adopts_first (svc : GeminiService) (api : GenerativeBackend) :
    (∀ i modelName, AVAILABLE_MODELS[i]? = some modelName →
      probeAcknowledged api modelName = true →
      (∀ e ∈ AVAILABLE_MODELS.take i, probeAcknowledged api e = false) →
      (svc.initializeModel api).result = .ok () ∧
        (svc.initializeModel api).service.model = some modelName ∧
        (svc.initializeModel api).probed = AVAILABLE_MODELS.take (i + 1)) ∧
    ((∀ e ∈ AVAILABLE_MODELS, probeAcknowledged api e = false) →
      (svc.initializeModel api).result =
          .error "No working Gemini model found. Please check your API key." ∧
        (svc.initializeModel api).service = svc ∧
        (svc.model = none → (svc.initializeModel api).service.model = none) ∧
        (svc.initializeModel api).probed = AVAILABLE_MODELS) := by
  constructor
  · intro i modelName hget hack hearlier
    have h := probeModels_of_first api AVAILABLE_MODELS i modelName hget
      (by rw [probeAccepts_eq_probeAcknowledged]; exact hack)
      (fun e he => by rw [probeAccepts_eq_probeAcknowledged]; exact hearlier e he)
    simp [GeminiService.initializeModel, h]
  · intro hall
    have h := probeModels_of_none api AVAILABLE_MODELS
      (fun e he => by rw [probeAccepts_eq_probeAcknowledged]; exact hall e he)
    simp [GeminiService.initializeModel, h]

/-- The first candidate is not found and the second acknowledges: the second is adopted
and the third is not probed. -/
theorem initializeModel_adopts_first_witness :
    ((GeminiService.mk none).initializeModel sampleGenerativeSecond).result = .ok () ∧
      ((GeminiService.mk none).initializeModel sampleGenerativeSecond).service.model =
        some "models/gemini-2.5-pro" ∧
      ((GeminiService.mk none).initializeModel sampleGenerativeSecond).probed =
        ["models/gemini-2.5-flash", "models/gemini-2.5-pro"] :=
  (initializeModel_adopts_first (GeminiService.mk none) sampleGenerativeSecond).1 1
    "models/gemini-2.5-pro" rfl rfl (by decide)

/-- The method and the function the other methods call agree. -/
theorem initializeModel_agrees (svc : GeminiService) (api : GenerativeBackend) :
    (∀ modelName, initializeModel api = .ok modelName ↔
      ((svc.initializeModel api).result = .ok () ∧
        (svc.initializeModel api).service = ⟨some modelName⟩)) := by
  intro modelName
  unfold initializeModel GeminiService.initializeModel
  cases (probeModels api AVAILABLE_MODELS).2 with
  | none => simp
  | some m => simp


/-! ## The history in the prompt -/

theorem jsSliceLast_eq_lastTurns (k : Nat) (chatHistory : List Turn) :
    jsSliceLast k chatHistory = lastTurns k chatHistory := by
  unfold jsSliceLast lastTurns
  rw [List.reverse_take, List.reverse_reverse, List.length_reverse]

theorem lastTurns_length (k : Nat) (chatHistory : List Turn) :
    (lastTurns k chatHistory).length = min k chatHistory.length := by
  rw [← jsSliceLast_eq_lastTurns]
  unfold jsSliceLast
  rw [List.length_drop]
  omega

theorem lastTurns_suffix (k : Nat) (chatHistory : List Turn) :
    lastTurns k chatHistory <:+ chatHistory := by
  rw [← jsSliceLast_eq_lastTurns]
  exact List.drop_suffix _ _

theorem lastTurns_idem (k : Nat) (chatHistory : List Turn) :
    lastTurns k (lastTurns k chatHistory) = lastTurns k chatHistory := by
  rw [← jsSliceLast_eq_lastTurns, ← jsSliceLast_eq_lastTurns]
  unfold jsSliceLast
  rw [List.length_drop, List.drop_drop]
  congr 1
  omega

theorem formatHistory_lastTurns (chatHistory : List Turn) :
    formatHistory (lastTurns 3 chatHistory) = formatHistory chatHistory := by
  unfold formatHistory
  rw [jsSliceLast_eq_lastTurns, jsSliceLast_eq_lastTurns, lastTurns_idem]

theorem formatTurn_data_ne_nil (t : Turn) : (formatTurn t).data ≠ [] := by
  unfold formatTurn
  split_ifs <;> simp [String.data_append]

theorem jsJoin_data_ne_nil (sep x : String) (xs : List String) (hx : x.data ≠ []) :
    (jsJoin sep (x :: xs)).data ≠ [] := by
  cases xs with
  | nil => simpa [jsJoin] using hx
  | cons y ys => simp [jsJoin, String.data_append, hx]

theorem conversationSection_eq (chatHistory : List Turn) :
    (if jsTruthy (formatHistory chatHistory) then
        "RECENT CONVERSATION:\n" ++ formatHistory chatHistory ++ "\n\n" else "") =
      conversationSection (lastTurns 3 chatHistory) := by
  unfold conversationSection formatHistory
  rw [jsSliceLast_eq_lastTurns]
  cases h : lastTurns 3 chatHistory with
  | nil => rfl
  | cons t ts =>
    have hne : (jsJoin "\n" ((t :: ts).map formatTurn)).data ≠ [] :=
      jsJoin_data_ne_nil "\n" (formatTurn t) (ts.map formatTurn) (formatTurn_data_ne_nil t)
    have htruthy : jsTruthy (jsJoin "\n" ((t :: ts).map formatTurn)) = true := by
      unfold jsTruthy
      cases hd : (jsJoin "\n" ((t :: ts).map formatTurn)).data with
      | nil => exact absurd hd hne
      | cons c cs => rfl
    rw [if_pos htruthy]
    simp

/-- Claim C13: the conversation section of the prompt is made of the last `min(3, n)`
turns of the history, a suffix of it and so in the original order, each line labelled by
the role of its turn; the prompt built from a history is the prompt built from its last
three turns, and so is everything `generateResponse` does. -/
theorem prompt_history_is_last_three (contextText query : String) (chatHistory : List Turn) :
    (lastTurns 3 chatHistory).length = min 3 chatHistory.length ∧
      lastTurns 3 chatHistory <:+ chatHistory ∧
      (∃ pre post, ∀ history : List Turn,
        buildPrompt contextText (formatHistory history) query =
          pre ++ conversationSection (lastTurns 3 history) ++ post) ∧
      (∀ t : Turn, t.role = "user" → formatTurn t = "👤 User: " ++ t.content) ∧
      (∀ t : Turn, t.role = "assistant" → formatTurn t = "🤖 Assistant: " ++ t.content) ∧
      buildPrompt contextText (formatHistory chatHistory) query =
        buildPrompt contextText (formatHistory (lastTurns 3 chatHistory)) query ∧
      ∀ (svc : GeminiService) (api : GenerativeBackend) (context : List ScoredPoint),
        svc.generateResponse api query context chatHistory =
          svc.generateResponse api query context (lastTurns 3 chatHistory) := by
  refine ⟨lastTurns_length 3 chatHistory, lastTurns_suffix 3 chatHistory, ?_, ?_, ?_, ?_, ?_⟩
  · refine ⟨"You are a helpful news assistant. Use the provided news articles to answer the user's question.\n\nRECENT NEWS ARTICLES:\n" ++
        contextText ++ "\n\n", "\nUSER QUESTION: " ++ query ++
        "\n\nINSTRUCTIONS:\n1. Answer based on the news articles provided above\n2. If the articles don't contain relevant information, say \"I don't have specific information about this in the recent news, but generally...\" and provide helpful information\n3. Be concise and factual\n4. Reference specific articles when possible (e.g., \"According to Source 1...\")\n5. Keep your response under 250 words\n\nPlease provide a helpful answer:", ?_⟩
    intro history
    unfold buildPrompt
    rw [conversationSection_eq]
    simp only [String.append_assoc]
  · intro t ht
    unfold formatTurn
    rw [if_pos ht]
    rfl
  · intro t ht
    unfold formatTurn
    rw [if_neg (by rw [ht]; decide)]
    rfl
  · rw [formatHistory_lastTurns]
  · intro svc api context
    unfold GeminiService.generateResponse generateAttempt
    rw [formatHistory_lastTurns]

/-- A history of five turns: the last three of them, and the same prompt from them. -/
theorem prompt_history_is_last_three_witness :
    lastTurns 3 sampleLongHistory =
        [⟨"user", "What happened in the election?", "t3"⟩,
         ⟨"assistant", "According to Source 1, votes were counted.", "t4"⟩,
         ⟨"user", "And the turnout?", "t5"⟩] ∧
      formatTurn ⟨"user", "And the turnout?", "t5"⟩ = "👤 User: " ++ "And the turnout?" ∧
      buildPrompt "articles" (formatHistory sampleLongHistory) "And the turnout?" =
        buildPrompt "articles" (formatHistory (lastTurns 3 sampleLongHistory))
          "And the turnout?" :=
  ⟨by decide,
    (prompt_history_is_last_three "articles" "And the turnout?" sampleLongHistory).2.2.2.1
      ⟨"user", "And the turnout?", "t5"⟩ rfl,
    (prompt_history_is_last_three "articles" "And the turnout?" sampleLongHistory).2.2.2.2.2.1⟩

/-! ## Initialising the vector index -/

theorem not_mem_of_find?_none (names : List String) (name : String)
    (h : names.find? (fun col => col == name) = none) : name ∉ names := by
  intro hmem
  have := List.find?_eq_none.mp h name hmem
  simp at this

/-- One call of `initialize` leaves the store as it was or adds the collection, and adds
it only when the store did not hold the name. -/
theorem initialize_store (svc : VectorStoreService) (store : QdrantStore)
    (call : InitializeCall) :
    ( VectorStoreService.initialize svc store call).store = store ∨
      (svc.collectionName ∉ store.getCollections ∧
        ( VectorStoreService.initialize svc store call).result = .ok () ∧
        ( VectorStoreService.initialize svc store call).store =
          ⟨store.collections ++ [(svc.collectionName, ⟨768, "Cosine"⟩)]⟩) := by
  unfold VectorStoreService.initialize
  by_cases hinit : svc.initialized = true
  · left; simp [hinit]
  · simp only [hinit]
    cases hl : call.listing with
    | some msg => left; rfl
    | none =>
      cases hf : store.getCollections.find? (fun col => col == svc.collectionName) with
      | some col => left; simp [hf]
      | none =>
        have habsent := not_mem_of_find?_none _ _ hf
        cases hc : call.creating with
        | some msg => left; simp [hf]
        | none =>
          right
          simp [hf, QdrantStore.createCollection, habsent]

/-- A call of `initialize` that returns leaves the service initialised. -/
theorem initialize_ok_initialized (svc : VectorStoreService) (store : QdrantStore)
    (call : InitializeCall)
    (h : ( VectorStoreService.initialize svc store call).result = .ok ()) :
    ( VectorStoreService.initialize svc store call).service.initialized = true := by
  unfold VectorStoreService.initialize at h ⊢
  by_cases hinit : svc.initialized = true
  · simp [hinit]
  · simp only [hinit] at h ⊢
    cases hl : call.listing with
    | some msg => simp [hl] at h
    | none =>
      cases hf : store.getCollections.find? (fun col => col == svc.collectionName) with
      | some col => simp [hf]
      | none =>
        have habsent := not_mem_of_find?_none _ _ hf
        cases hc : call.creating with
        | some msg => simp [hl, hf, hc] at h
        | none => simp [hf, QdrantStore.createCollection, habsent]

/-- On an initialised service `initialize` returns at once. -/
theorem initialize_of_initialized (svc : VectorStoreService) (store : QdrantStore)
    (call : InitializeCall) (h : svc.initialized = true) :
    VectorStoreService.initialize svc store call = ⟨.ok (), svc, store, []⟩ := by
  unfold VectorStoreService.initialize
  simp [h]

/-- A call of `initialize` keeps the name of the collection. -/
theorem initialize_collectionName (svc : VectorStoreService) (store : QdrantStore)
    (call : InitializeCall) :
    ( VectorStoreService.initialize svc store call).service.collectionName =
      svc.collectionName := by
  unfold VectorStoreService.initialize
  by_cases hinit : svc.initialized = true
  · simp [hinit]
  · simp only [hinit]
    cases hl : call.listing with
    | some msg => rfl
    | none =>
      cases hf : store.getCollections.find? (fun col => col == svc.collectionName) with
      | some col => simp [hf]
      | none =>
        have habsent := not_mem_of_find?_none _ _ hf
        cases hc : call.creating with
        | some msg => simp [hf]
        | none => simp [hf, QdrantStore.createCollection, habsent]

/-- With both requests reaching the store, `initialize` returns. -/
theorem initialize_ok_of_reachable (svc : VectorStoreService) (store : QdrantStore)
    (call : InitializeCall) (hl : call.listing = none) (hc : call.creating = none) :
    ( VectorStoreService.initialize svc store call).result = .ok () := by
  unfold VectorStoreService.initialize
  by_cases hinit : svc.initialized = true
  · simp [hinit]
  · simp only [hinit, hl, hc]
    cases hf : store.getCollections.find? (fun col => col == svc.collectionName) with
    | some col => simp [hf]
    | none =>
      have habsent := not_mem_of_find?_none _ _ hf
      simp [hf, QdrantStore.createCollection, habsent]

/-- Claim C14 fails as stated: while the store cannot be reached the first call throws
without marking the service initialised, and the second call issues `getCollections`
again and throws as well. -/
theorem initialize_twice_unreachable :
    (initializeTwice VectorStoreService.new sampleStore sampleUnreachable sampleUnreachable).1.result =
        .error "connect ECONNREFUSED 127.0.0.1:6333" ∧
      (initializeTwice VectorStoreService.new sampleStore sampleUnreachable
          sampleUnreachable).2.result = .error "connect ECONNREFUSED 127.0.0.1:6333" ∧
      (initializeTwice VectorStoreService.new sampleStore sampleUnreachable
          sampleUnreachable).2.requests = [QdrantRequest.getCollections] :=
  ⟨rfl, rfl, rfl⟩

/-- Claim C14, amended: over two calls of `initialize` in a row the collection is created
at most once, and only when the store did not hold a collection of that name; when the
first call returns, the second returns as well, issues no request and changes nothing;
and the first call returns whenever its requests reach the store. -/
theorem initialize_twice (svc : VectorStoreService) (store : QdrantStore)
    (first second : InitializeCall) :
    ((initializeTwice svc store first second).2.store = store ∨
      (svc.collectionName ∉ store.getCollections ∧
        (initializeTwice svc store first second).2.store =
          ⟨store.collections ++ [(svc.collectionName, ⟨768, "Cosine"⟩)]⟩)) ∧
    ((initializeTwice svc store first second).1.result = .ok () →
      (initializeTwice svc store first second).2 =
        ⟨.ok (), (initializeTwice svc store first second).1.service,
          (initializeTwice svc store first second).1.store, []⟩) ∧
    (first.listing = none → first.creating = none →
      (initializeTwice svc store first second).1.result = .ok ()) := by
  unfold initializeTwice
  simp only
  have hsecond : ( VectorStoreService.initialize svc store first).result = .ok () →
      VectorStoreService.initialize ( VectorStoreService.initialize svc store first).service
          ( VectorStoreService.initialize svc store first).store second =
        ⟨.ok (), ( VectorStoreService.initialize svc store first).service,
          ( VectorStoreService.initialize svc store first).store, []⟩ :=
    fun hok => initialize_of_initialized _ _ second
      (initialize_ok_initialized svc store first hok)
  refine ⟨?_, hsecond, initialize_ok_of_reachable svc store first⟩
  rcases initialize_store svc store first with h1 | ⟨habsent, hok, h1⟩
  · rcases initialize_store ( VectorStoreService.initialize svc store first).service
        ( VectorStoreService.initialize svc store first).store second with
      h2 | ⟨habsent2, _, h2⟩
    · left; rw [h2, h1]
    · right
      rw [initialize_collectionName] at habsent2 h2
      rw [h1] at habsent2 h2 ⊢
      exact ⟨habsent2, h2⟩
  · right
    rw [hsecond hok]
    exact ⟨habsent, h1⟩

/-- The first call creates the collection; the second, made while the store cannot be
reached, returns all the same. -/
theorem initialize_twice_witness :
    (initializeTwice VectorStoreService.new sampleStore ⟨none, none⟩ sampleUnreachable).2 =
      ⟨.ok (),
        (initializeTwice VectorStoreService.new sampleStore ⟨none, none⟩ sampleUnreachable).1.service,
        (initializeTwice VectorStoreService.new sampleStore ⟨none, none⟩ sampleUnreachable).1.store,
        []⟩ :=
  (initialize_twice VectorStoreService.new sampleStore ⟨none, none⟩ sampleUnreachable).2.1
    ((initialize_twice VectorStoreService.new sampleStore ⟨none, none⟩ sampleUnreachable).2.2
      rfl rfl)

end NewsRag
